import Mathlib

/-!
Verification of the matchmaking core of the JWebgames WebAPI service.

The definitions below are a shallow embedding of `webapi/storage/drivers.py`
(classes `InMemory`, `Redis`, `Postgres`), `webapi/middlewares.py`
(`authenticate`) and `webapi/routes/groups.py` (`kick` / `leave`).
Identifiers (UUIDs and integer game ids) are modelled as `Nat`.  Python
dictionaries and Redis keys become association lists with insertion-order
update semantics; Redis sets become duplicate-free lists; Redis lists keep
list semantics (`rpush` appends, `lrem` removes the first occurrence).
`asyncio.ensure_future` calls are modelled as a list of scheduled tasks
returned alongside the new store state: the scheduled work runs later, not
inside the operation.  Message-bus publications (`MSG.send_message`) are
external I/O and are not part of the store state.

A Python exception leaves already-performed mutations in place, so every
operation returns both an `Except` result and the store state at the moment
the operation finished or raised.
-/

set_option autoImplicit false

namespace WebAPI

inductive GState
  | GROUP_CHECK
  | IN_QUEUE
  | PARTY_CHECK
  | PLAYING
deriving DecidableEq, Repr

/-- Error kinds raised by the drivers.  `KeyError`, `ValueError` and
`AttributeError` model the corresponding Python built-in exceptions raised
by dictionary lookups, `list.remove` and `None.decode()`. -/
inductive KVSError
  | PlayerInGroupAlready
  | PlayerNotInGroup
  | GroupDoesntExist
  | GroupIsFull
  | GroupNotReady
  | WrongGroupState
  | GameDoesntExist
  | NotFoundErr
  | PartyDoesntExist
  | KeyError
  | ValueError
  | AttributeError
deriving DecidableEq, Repr

structure Game where
  gameid : Nat
  capacity : Nat
  ports : List Nat
deriving DecidableEq, Repr

structure Group where
  state : GState
  members : List Nat
  gameid : Nat
  slotid : Option Nat
  partyid : Option Nat
deriving DecidableEq, Repr

structure UserKVS where
  groupid : Option Nat
  partyid : Option Nat
  ready : Bool
deriving DecidableEq, Repr

structure Slot where
  players : List Nat
  groups : List Nat
deriving DecidableEq, Repr

structure Party where
  gameid : Nat
  slotid : Nat
  host : String
  ports : List Nat
deriving DecidableEq, Repr

/-- `asyncio.ensure_future(...)` calls made by the store operations. -/
inductive SchedTask
  | startGame (gameid slotid : Nat)
  | groupCleanup (groupid : Nat)
  | launchGame (gameid partyid : Nat)
deriving DecidableEq, Repr

/-- Ordering events recorded by `mark_as_not_ready`: the `leave_queue`
call and the write of the caller's ready flag. -/
inductive Event
  | leaveQueue (groupid : Nat)
  | setReady (userid : Nat) (value : Bool)
deriving DecidableEq, Repr

instance {ε α : Type} [DecidableEq ε] [DecidableEq α] : DecidableEq (Except ε α) := fun x y =>
  match x, y with
  | .ok a, .ok b =>
    if h : a = b then .isTrue (by rw [h]) else .isFalse (by simp [h])
  | .ok _, .error _ => .isFalse (by simp)
  | .error _, .ok _ => .isFalse (by simp)
  | .error a, .error b =>
    if h : a = b then .isTrue (by rw [h]) else .isFalse (by simp [h])

/-- Association-list lookup (Python `dict` access / Redis `get`). -/
def aget {β : Type} : List (Nat × β) → Nat → Option β
  | [], _ => none
  | (k, v) :: rest, k' => if k = k' then some v else aget rest k'

/-- Association-list write (Python `dict` assignment / Redis `set`):
updates in place, otherwise appends, matching insertion-order dictionaries. -/
def aset {β : Type} : List (Nat × β) → Nat → β → List (Nat × β)
  | [], k, v => [(k, v)]
  | (k', v') :: rest, k, v =>
    if k' = k then (k, v) :: rest else (k', v') :: aset rest k v

/-- Association-list delete (Python `del` / Redis `delete`). -/
def adel {β : Type} : List (Nat × β) → Nat → List (Nat × β)
  | [], _ => []
  | (k', v') :: rest, k =>
    if k' = k then adel rest k else (k', v') :: adel rest k

/-- Redis `SADD` of one element: a set ignores duplicates. -/
def sadd (s : List Nat) (x : Nat) : List Nat :=
  if s.contains x then s else s ++ [x]

/-- Redis `SUNIONSTORE dest a b`. -/
def sunion (a b : List Nat) : List Nat :=
  a ++ b.filter (fun x => !(a.contains x))

/-- Redis `SDIFFSTORE dest a b`. -/
def sdiff (a b : List Nat) : List Nat :=
  a.filter (fun x => !(b.contains x))

/-- Result of one driver operation: the `Except` outcome, the state of the
store when the operation returned or raised, the futures it scheduled, and
(for the readiness operations) the recorded ordering events. -/
structure OpResult (σ : Type) (α : Type) where
  res : Except KVSError α
  st : σ
  tasks : List SchedTask := []
  trace : List Event := []
deriving DecidableEq, Repr

namespace Postgres

/-- `Postgres.get_game_by_id` (drivers.py:144-150): fetches the row and
raises `NotFoundError` when the game is unknown; it never returns `None`. -/
def get_game_by_id (games : List Game) (id_ : Nat) : Except KVSError Game :=
  match games.find? (fun g => g.gameid == id_) with
  | some g => .ok g
  | none => .error .NotFoundErr

end Postgres

/-- State of the `InMemory` key-value store (drivers.py:640-653). -/
structure InMemoryState where
  token_revocation_list : List Nat := []
  users : List (Nat × UserKVS) := []
  groups : List (Nat × Group) := []
  queues : List (Nat × List Nat) := []
  slots : List (Nat × Slot) := []
  parties : List (Nat × Party) := []
deriving DecidableEq, Repr

namespace InMemory

/-- `InMemory.get_user` (drivers.py:675-680). -/
def get_user (st : InMemoryState) (userid : Nat) : Except KVSError UserKVS :=
  match aget st.users userid with
  | none => .error .PlayerNotInGroup
  | some user => .ok user

/-- `InMemory.create_group` (drivers.py:663-673).  `freshGroupid` stands for
the `uuid4()` allocation.  The game id is not validated here: the source has
no existence check for `gameid`. -/
def create_group (st : InMemoryState) (userid gameid freshGroupid : Nat) :
    OpResult InMemoryState Nat :=
  if (match aget st.users userid with
      | some user => user.groupid.isSome
      | none => false) then
    { res := .error .PlayerInGroupAlready, st := st }
  else
    { res := .ok freshGroupid,
      st := { st with
        users := aset st.users userid ⟨some freshGroupid, none, false⟩,
        groups := aset st.groups freshGroupid ⟨.GROUP_CHECK, [userid], gameid, none, none⟩ } }

/-- `InMemory.mark_as_ready` (drivers.py:707-718). -/
def mark_as_ready (st : InMemoryState) (userid : Nat) : OpResult InMemoryState Unit :=
  match aget st.users userid with
  | none => { res := .error .PlayerNotInGroup, st := st }
  | some user =>
    match user.groupid with
    | none => { res := .error .PlayerNotInGroup, st := st }
    | some gid =>
      match aget st.groups gid with
      | none => { res := .error .KeyError, st := st }
      | some group =>
        if group.state = .GROUP_CHECK ∨ group.state = .PARTY_CHECK then
          { res := .ok (),
            st := { st with users := aset st.users userid { user with ready := true } } }
        else { res := .error .WrongGroupState, st := st }

/-- The member-removal loop of `InMemory.leave_queue` (drivers.py:802-803):
`slot.players.remove(member)` for each member, raising `ValueError` on a
missing member with the earlier removals already applied. -/
def remove_players (players : List Nat) : List Nat → List Nat × Option KVSError
  | [] => (players, none)
  | u :: rest =>
    if players.contains u then remove_players (players.erase u) rest
    else (players, some .ValueError)

/-- `InMemory.leave_queue` (drivers.py:792-808). -/
def leave_queue (st : InMemoryState) (groupid : Nat) : OpResult InMemoryState Unit :=
  match aget st.groups groupid with
  | none => { res := .error .GroupDoesntExist, st := st }
  | some group =>
    if group.state ≠ .IN_QUEUE then { res := .error .WrongGroupState, st := st }
    else
      match group.slotid with
      | none => { res := .error .KeyError, st := st }
      | some sid =>
        match aget st.slots sid with
        | none => { res := .error .KeyError, st := st }
        | some slot =>
          if slot.groups.contains groupid then
            let slot₁ : Slot := { slot with groups := slot.groups.erase groupid }
            match remove_players slot₁.players group.members with
            | (players', some e) =>
              { res := .error e,
                st := { st with slots := aset st.slots sid { slot₁ with players := players' } } }
            | (players', none) =>
              let slot₂ : Slot := { slot₁ with players := players' }
              if slot₂.groups.isEmpty then
                match aget st.queues group.gameid with
                | none =>
                  { res := .error .KeyError,
                    st := { st with slots := adel st.slots sid } }
                | some q =>
                  if q.contains sid then
                    { res := .ok (),
                      st := { st with
                        slots := adel st.slots sid,
                        queues := aset st.queues group.gameid (q.erase sid),
                        groups := aset st.groups groupid
                          { group with slotid := none, state := .GROUP_CHECK } } }
                  else
                    { res := .error .ValueError,
                      st := { st with slots := adel st.slots sid } }
              else
                { res := .ok (),
                  st := { st with
                    slots := aset st.slots sid slot₂,
                    groups := aset st.groups groupid
                      { group with slotid := none, state := .GROUP_CHECK } } }
          else { res := .error .ValueError, st := st }

/-- `InMemory.mark_as_not_ready` (drivers.py:720-732).  The source clears
the caller's ready flag first and only then, when the group is `IN_QUEUE`,
awaits `leave_queue`; the `trace` field records that order. -/
def mark_as_not_ready (st : InMemoryState) (userid : Nat) : OpResult InMemoryState Unit :=
  match aget st.users userid with
  | none => { res := .error .PlayerNotInGroup, st := st }
  | some user =>
    match user.groupid with
    | none => { res := .error .PlayerNotInGroup, st := st }
    | some gid =>
      match aget st.groups gid with
      | none => { res := .error .KeyError, st := st }
      | some group =>
        if group.state = .GROUP_CHECK ∨ group.state = .IN_QUEUE ∨ group.state = .PARTY_CHECK then
          let st₁ : InMemoryState :=
            { st with users := aset st.users userid { user with ready := false } }
          if group.state = .IN_QUEUE then
            let r := leave_queue st₁ gid
            { res := r.res, st := r.st, tasks := r.tasks,
              trace := [Event.setReady userid false, Event.leaveQueue gid] }
          else
            { res := .ok (), st := st₁, trace := [Event.setReady userid false] }
        else { res := .error .WrongGroupState, st := st }

/-- `InMemory.leave_group` (drivers.py:738-754).  Source line 750 reads
`self.leave_queue(self, None, group)`: it builds a coroutine that is never
awaited (and whose argument list would raise `TypeError` if it ever ran),
so when the group is `IN_QUEUE` nothing of `leave_queue` takes effect. -/
def leave_group (st : InMemoryState) (userid : Nat) : OpResult InMemoryState Unit :=
  match aget st.users userid with
  | none => { res := .error .PlayerNotInGroup, st := st }
  | some user =>
    match user.groupid with
    | none => { res := .error .PlayerNotInGroup, st := st }
    | some gid =>
      match aget st.groups gid with
      | none => { res := .error .KeyError, st := st }
      | some group =>
        if group.state = .GROUP_CHECK ∨ group.state = .IN_QUEUE then
          let st₁ : InMemoryState := { st with users := adel st.users userid }
          if group.members.contains userid then
            let members' := group.members.erase userid
            if members'.isEmpty then
              { res := .ok (), st := { st₁ with groups := adel st₁.groups gid } }
            else
              { res := .ok (),
                st := { st₁ with groups := aset st₁.groups gid { group with members := members' } } }
          else { res := .error .ValueError, st := st₁ }
        else { res := .error .WrongGroupState, st := st }

/-- The readiness loop of `InMemory.join_queue` (drivers.py:764-766):
`for userid in group.members: if not self.users[userid].ready: raise`. -/
def ready_check (users : List (Nat × UserKVS)) : List Nat → Option KVSError
  | [] => none
  | u :: rest =>
    match aget users u with
    | none => some .KeyError
    | some usr => if usr.ready then ready_check users rest else some .GroupNotReady

/-- The packing loop of `InMemory.join_queue` (drivers.py:774-783): first
queued slot whose size plus the group size fits the capacity; `.ok none`
is the `for ... else` fall-through, `.error` a `KeyError` on a dangling
slot id. -/
def pack_loop (st : InMemoryState) (groupid : Nat) (group : Group) (gameid cap : Nat) :
    List Nat → Except KVSError (Option (InMemoryState × List SchedTask))
  | [] => .ok none
  | sid :: rest =>
    match aget st.slots sid with
    | none => .error .KeyError
    | some slot =>
      let size := slot.players.length + group.members.length
      if size ≤ cap then
        let slot' : Slot := { slot with
          players := slot.players ++ group.members,
          groups := slot.groups ++ [groupid] }
        let st' : InMemoryState := { st with
          slots := aset st.slots sid slot',
          groups := aset st.groups groupid { group with slotid := some sid } }
        .ok (some (st', if size = cap then [SchedTask.startGame gameid sid] else []))
      else pack_loop st groupid group gameid cap rest

/-- `InMemory.join_queue` (drivers.py:756-790).  `freshSlotid` stands for
the `uuid4()` allocation of the overflow slot.  Note that the source sets
the group state to `IN_QUEUE` before the readiness loop runs, so a
`GroupNotReady` failure leaves the group in `IN_QUEUE`. -/
def join_queue (rdb : List Game) (st : InMemoryState) (groupid freshSlotid : Nat) :
    OpResult InMemoryState Unit :=
  match aget st.groups groupid with
  | none => { res := .error .GroupDoesntExist, st := st }
  | some group =>
    if group.state ≠ .GROUP_CHECK then { res := .error .WrongGroupState, st := st }
    else
      let group₁ : Group := { group with state := .IN_QUEUE }
      let st₁ : InMemoryState := { st with groups := aset st.groups groupid group₁ }
      match ready_check st₁.users group.members with
      | some e => { res := .error e, st := st₁ }
      | none =>
        match Postgres.get_game_by_id rdb group.gameid with
        | .error e => { res := .error e, st := st₁ }
        | .ok game =>
          let qopt := aget st₁.queues game.gameid
          let st₂ : InMemoryState :=
            match qopt with
            | none => { st₁ with queues := aset st₁.queues game.gameid [] }
            | some _ => st₁
          let queue := qopt.getD []
          match pack_loop st₂ groupid group₁ game.gameid game.capacity queue with
          | .error e => { res := .error e, st := st₂ }
          | .ok (some (st₃, ts)) => { res := .ok (), st := st₃, tasks := ts }
          | .ok none =>
            let slot : Slot := { players := group.members, groups := [groupid] }
            let st₃ : InMemoryState := { st₂ with
              groups := aset st₂.groups groupid { group₁ with slotid := some freshSlotid },
              slots := aset st₂.slots freshSlotid slot,
              queues := aset st₂.queues game.gameid (queue ++ [freshSlotid]) }
            { res := .ok (), st := st₃,
              tasks := if slot.players.length = game.capacity
                       then [SchedTask.startGame game.gameid freshSlotid] else [] }

/-- The group loop of `InMemory.start_game` (drivers.py:814-818): every
group of the slot is set to `PLAYING` with the new party id.  Returns the
updated map, the final value of the loop variable `group`, and an error for
a missing group id. -/
def set_groups_playing (groups : List (Nat × Group)) (partyid : Nat) :
    List Nat → List (Nat × Group) × Option Group × Option KVSError
  | [] => (groups, none, none)
  | gid :: rest =>
    match aget groups gid with
    | none => (groups, none, some .KeyError)
    | some g =>
      let g' : Group := { g with state := .PLAYING, partyid := some partyid }
      let out := set_groups_playing (aset groups gid g') partyid rest
      (out.1, some (out.2.1.getD g'), out.2.2)

/-- The player loop of `InMemory.start_game` (drivers.py:819-820). -/
def set_users_partyid (users : List (Nat × UserKVS)) (partyid : Nat) :
    List Nat → List (Nat × UserKVS) × Option KVSError
  | [] => (users, none)
  | u :: rest =>
    match aget users u with
    | none => (users, some .KeyError)
    | some usr =>
      set_users_partyid (aset users u { usr with partyid := some partyid }) partyid rest

/-- `InMemory.start_game` (drivers.py:810-831).  `freshPartyid` models the
`uuid4()` allocation, `host`/`ports` the configured host and the random
port sample.  The queue removal on line 822 uses the *loop variable*
`group`, i.e. the last group of the slot. -/
def start_game (rdb : List Game) (st : InMemoryState) (gameid slotid freshPartyid : Nat)
    (host : String) (ports : List Nat) : OpResult InMemoryState Unit :=
  match aget st.slots slotid with
  | none => { res := .error .KeyError, st := st }
  | some slot =>
    match set_groups_playing st.groups freshPartyid slot.groups with
    | (_, none, _) => { res := .error .KeyError, st := st }
    | (groups', some _, some e) => { res := .error e, st := { st with groups := groups' } }
    | (groups', some lastGroup, none) =>
      match set_users_partyid st.users freshPartyid slot.players with
      | (users', some e) =>
        { res := .error e, st := { st with groups := groups', users := users' } }
      | (users', none) =>
        let st₁ : InMemoryState := { st with groups := groups', users := users' }
        match aget st₁.queues lastGroup.gameid, lastGroup.slotid with
        | none, _ => { res := .error .KeyError, st := st₁ }
        | some _, none => { res := .error .ValueError, st := st₁ }
        | some q, some gsid =>
          if q.contains gsid then
            let st₂ : InMemoryState :=
              { st₁ with queues := aset st₁.queues lastGroup.gameid (q.erase gsid) }
            match Postgres.get_game_by_id rdb gameid with
            | .error e => { res := .error e, st := st₂ }
            | .ok _game =>
              let party : Party := { gameid := gameid, slotid := slotid, host := host, ports := ports }
              { res := .ok (),
                st := { st₂ with parties := aset st₂.parties freshPartyid party },
                tasks := [SchedTask.launchGame gameid freshPartyid] }
          else { res := .error .ValueError, st := st₁ }

end InMemory

/-- State of the `Redis` key-value store (drivers.py:324-345), one field per
key family.  `trl` is the sorted set `"trl"` of revoked token ids with their
expiry as score. -/
structure RedisState where
  trl : List (Nat × Nat) := []
  userGroup : List (Nat × Nat) := []
  userReady : List (Nat × Bool) := []
  userParty : List (Nat × Nat) := []
  groupState : List (Nat × GState) := []
  groupGameid : List (Nat × Nat) := []
  groupSlotid : List (Nat × Nat) := []
  groupPartyid : List (Nat × Nat) := []
  groupMembers : List (Nat × List Nat) := []
  queues : List (Nat × List Nat) := []
  slotPlayers : List (Nat × List Nat) := []
  slotGroups : List (Nat × List Nat) := []
  partyGameid : List (Nat × Nat) := []
  partySlotid : List (Nat × Nat) := []
  partyHost : List (Nat × String) := []
  partyPorts : List (Nat × List Nat) := []
deriving DecidableEq, Repr

/-- `ClientType` (storage/models.py:30-36). -/
inductive ClientType
  | ADMIN
  | PLAYER
  | GAME
  | WEBAPI
  | MANAGER
deriving DecidableEq, Repr

/-- Claims of a decoded JSON Web Token, as used by the middleware. -/
structure TokenClaims where
  jti : Nat
  typ : ClientType
  uid : Nat
  exp : Nat
deriving DecidableEq, Repr

namespace Redis

/-- `Redis.revoke_token` (drivers.py:347-349):
`zremrangebyscore("trl", 0, int(time()))` drops every entry whose score
(expiry) lies in `[0, now]`, then `zadd` stores the token id with its
expiry (updating the score when the member already exists). -/
def revoke_token (st : RedisState) (now : Nat) (token : TokenClaims) : RedisState :=
  let pruned := st.trl.filter (fun e => !(e.2 ≤ now))
  { st with trl := (pruned.filter (fun e => !(e.1 == token.jti))) ++ [(token.jti, token.exp)] }

/-- `Redis.is_token_revoked` (drivers.py:351-352): `zscore` is not `None`. -/
def is_token_revoked (st : RedisState) (token_id : Nat) : Bool :=
  (st.trl.find? (fun e => e.1 == token_id)).isSome

/-- `Redis.create_group` (drivers.py:366-385).  `freshGroupid` stands for
the `uuid4()` allocation.  Because `Postgres.get_game_by_id` raises
`NotFoundError` instead of returning `None`, the source's
`if game is None: raise GameDoesntExist()` can never fire: an unknown game
id propagates `NotFoundError`. -/
def create_group (rdb : List Game) (st : RedisState) (userid gameid freshGroupid : Nat) :
    OpResult RedisState Nat :=
  match aget st.userGroup userid with
  | some _ => { res := .error .PlayerInGroupAlready, st := st }
  | none =>
    match Postgres.get_game_by_id rdb gameid with
    | .error e => { res := .error e, st := st }
    | .ok _game =>
      { res := .ok freshGroupid,
        st := { st with
          userGroup := aset st.userGroup userid freshGroupid,
          userReady := aset st.userReady userid false,
          groupState := aset st.groupState freshGroupid .GROUP_CHECK,
          groupGameid := aset st.groupGameid freshGroupid gameid,
          groupMembers := aset st.groupMembers freshGroupid (sadd [] userid) } }

/-- `Redis.mark_as_ready` (drivers.py:460-473). -/
def mark_as_ready (st : RedisState) (userid : Nat) : OpResult RedisState Unit :=
  match aget st.userGroup userid with
  | none => { res := .error .PlayerNotInGroup, st := st }
  | some gid =>
    match aget st.groupState gid with
    | none => { res := .error .ValueError, st := st }
    | some state =>
      if state = .GROUP_CHECK ∨ state = .PARTY_CHECK then
        { res := .ok (), st := { st with userReady := aset st.userReady userid true } }
      else { res := .error .WrongGroupState, st := st }

/-- `Redis.is_user_ready` (drivers.py:492-493): the key equals `b"1"`;
a missing key counts as not ready. -/
def is_user_ready (st : RedisState) (userid : Nat) : Bool :=
  (aget st.userReady userid).getD false

/-- `Redis.is_group_ready` (drivers.py:495-499). -/
def is_group_ready (st : RedisState) (groupid : Nat) : Bool :=
  ((aget st.groupMembers groupid).getD []).all (fun u => is_user_ready st u)

/-- `Redis.leave_queue` (drivers.py:549-568).  The source line 567
`self.redis.lrem(...)` lacks `await`: the command coroutine is created but
never executed, so the queue is left unchanged even when the slot has just
become empty; the `groups:{id}:slotid` key is also never cleared. -/
def leave_queue (st : RedisState) (groupid : Nat) : OpResult RedisState Unit :=
  match aget st.groupGameid groupid with
  | none => { res := .error .GroupDoesntExist, st := st }
  | some _gameid =>
    match aget st.groupState groupid with
    | none => { res := .error .ValueError, st := st }
    | some state =>
      if state ≠ .IN_QUEUE then { res := .error .WrongGroupState, st := st }
      else
        match aget st.groupSlotid groupid with
        | none => { res := .error .AttributeError, st := st }
        | some sid =>
          let sg := (aget st.slotGroups sid).getD []
          let st₁ : RedisState := { st with slotGroups := aset st.slotGroups sid (sg.erase groupid) }
          let mem := (aget st₁.groupMembers groupid).getD []
          let sp := (aget st₁.slotPlayers sid).getD []
          let st₂ : RedisState := { st₁ with slotPlayers := aset st₁.slotPlayers sid (sdiff sp mem) }
          { res := .ok (),
            st := { st₂ with groupState := aset st₂.groupState groupid .GROUP_CHECK } }

/-- `Redis.mark_as_not_ready` (drivers.py:475-490): when the group is
`IN_QUEUE` it awaits `leave_queue` first and clears the caller's ready
flag afterwards; the `trace` field records that order. -/
def mark_as_not_ready (st : RedisState) (userid : Nat) : OpResult RedisState Unit :=
  match aget st.userGroup userid with
  | none => { res := .error .PlayerNotInGroup, st := st }
  | some gid =>
    match aget st.groupState gid with
    | none => { res := .error .ValueError, st := st }
    | some state =>
      if state = .GROUP_CHECK ∨ state = .IN_QUEUE ∨ state = .PARTY_CHECK then
        if state = .IN_QUEUE then
          let r := leave_queue st gid
          match r.res with
          | .error e => { res := .error e, st := r.st, trace := [Event.leaveQueue gid] }
          | .ok _ =>
            { res := .ok (),
              st := { r.st with userReady := aset r.st.userReady userid false },
              trace := [Event.leaveQueue gid, Event.setReady userid false] }
        else
          { res := .ok (), st := { st with userReady := aset st.userReady userid false },
            trace := [Event.setReady userid false] }
      else { res := .error .WrongGroupState, st := st }

/-- `Redis.group_cleanup` (drivers.py:435-443), the future scheduled by
`leave_group`: deletes the group keys once the member set is empty. -/
def group_cleanup (st : RedisState) (groupid : Nat) : RedisState :=
  if ((aget st.groupMembers groupid).getD []).isEmpty then
    { st with
      groupGameid := adel st.groupGameid groupid,
      groupState := adel st.groupState groupid,
      groupSlotid := adel st.groupSlotid groupid,
      groupPartyid := adel st.groupPartyid groupid }
  else st

/-- `Redis.leave_group` (drivers.py:413-433): when the group is `IN_QUEUE`
it awaits `leave_queue` before deleting the caller's session keys and
removing the caller from the member set, then schedules `group_cleanup`. -/
def leave_group (st : RedisState) (userid : Nat) : OpResult RedisState Unit :=
  match aget st.userGroup userid with
  | none => { res := .error .PlayerNotInGroup, st := st }
  | some gid =>
    match aget st.groupState gid with
    | none => { res := .error .ValueError, st := st }
    | some state =>
      if state = .GROUP_CHECK ∨ state = .IN_QUEUE then
        let r : OpResult RedisState Unit :=
          if state = .IN_QUEUE then leave_queue st gid else { res := .ok (), st := st }
        match r.res with
        | .error e => { res := .error e, st := r.st }
        | .ok _ =>
          { res := .ok (),
            st := { r.st with
              userGroup := adel r.st.userGroup userid,
              userReady := adel r.st.userReady userid,
              groupMembers := aset r.st.groupMembers gid
                (((aget r.st.groupMembers gid).getD []).erase userid) },
            tasks := [SchedTask.groupCleanup gid] }
      else { res := .error .WrongGroupState, st := st }

/-- The packing loop of `Redis.join_queue` (drivers.py:523-536): first
queued slot whose player-set cardinality plus the member-set cardinality
fits the capacity; `none` is the `for ... else` fall-through.  A dangling
slot id counts as an empty set (Redis semantics for a missing key). -/
def pack_loop (st : RedisState) (groupid : Nat) (members : List Nat) (gameid cap : Nat) :
    List Nat → Option (RedisState × List SchedTask)
  | [] => none
  | sid :: rest =>
    let sp := (aget st.slotPlayers sid).getD []
    let size := sp.length + members.length
    if size ≤ cap then
      let st' : RedisState := { st with
        groupSlotid := aset st.groupSlotid groupid sid,
        slotPlayers := aset st.slotPlayers sid (sunion sp members),
        slotGroups := aset st.slotGroups sid (sadd ((aget st.slotGroups sid).getD []) groupid) }
      some (st', if size = cap then [SchedTask.startGame gameid sid] else [])
    else pack_loop st groupid members gameid cap rest

/-- `Redis.join_queue` (drivers.py:502-547).  `freshSlotid` stands for the
`uuid4()` allocation of the overflow slot.  Unlike the `InMemory` version,
the readiness check runs before the state is switched to `IN_QUEUE`. -/
def join_queue (rdb : List Game) (st : RedisState) (groupid freshSlotid : Nat) :
    OpResult RedisState Unit :=
  match aget st.groupGameid groupid with
  | none => { res := .error .GroupDoesntExist, st := st }
  | some gameid =>
    match aget st.groupState groupid with
    | none => { res := .error .ValueError, st := st }
    | some state =>
      if state ≠ .GROUP_CHECK then { res := .error .WrongGroupState, st := st }
      else if !(is_group_ready st groupid) then { res := .error .GroupNotReady, st := st }
      else
        let st₁ : RedisState := { st with groupState := aset st.groupState groupid .IN_QUEUE }
        match Postgres.get_game_by_id rdb gameid with
        | .error e => { res := .error e, st := st₁ }
        | .ok game =>
          let members := (aget st₁.groupMembers groupid).getD []
          let queue := (aget st₁.queues gameid).getD []
          match pack_loop st₁ groupid members gameid game.capacity queue with
          | some (st₂, ts) => { res := .ok (), st := st₂, tasks := ts }
          | none =>
            let st₂ : RedisState := { st₁ with
              groupSlotid := aset st₁.groupSlotid groupid freshSlotid,
              slotPlayers := aset st₁.slotPlayers freshSlotid (sunion [] members),
              slotGroups := aset st₁.slotGroups freshSlotid (sadd [] groupid),
              queues := aset st₁.queues gameid (queue ++ [freshSlotid]) }
            { res := .ok (), st := st₂,
              tasks := if members.length = game.capacity
                       then [SchedTask.startGame gameid freshSlotid] else [] }

/-- The group loop of `Redis.start_game` (drivers.py:574-580). -/
def set_groups_playing (st : RedisState) (partyid : Nat) : List Nat → RedisState
  | [] => st
  | g :: rest =>
    set_groups_playing
      { st with
        groupState := aset st.groupState g .PLAYING,
        groupPartyid := aset st.groupPartyid g partyid } partyid rest

/-- The player loop of `Redis.start_game` (drivers.py:582-585). -/
def set_users_partyid (st : RedisState) (partyid : Nat) : List Nat → RedisState
  | [] => st
  | u :: rest =>
    set_users_partyid { st with userParty := aset st.userParty u partyid } partyid rest

/-- `Redis.start_game` (drivers.py:570-603).  `freshPartyid` models the
`uuid4()` allocation, `host`/`ports` the configured host and the random
port sample.  Here the `lrem` on line 587 *is* awaited, so the slot is
removed from the queue. -/
def start_game (rdb : List Game) (st : RedisState) (gameid slotid freshPartyid : Nat)
    (host : String) (ports : List Nat) : OpResult RedisState Unit :=
  let groups := (aget st.slotGroups slotid).getD []
  let st₁ := set_groups_playing st freshPartyid groups
  let users := (aget st₁.slotPlayers slotid).getD []
  let st₂ := set_users_partyid st₁ freshPartyid users
  let q := (aget st₂.queues gameid).getD []
  let st₃ : RedisState := { st₂ with queues := aset st₂.queues gameid (q.erase slotid) }
  match Postgres.get_game_by_id rdb gameid with
  | .error e => { res := .error e, st := st₃ }
  | .ok _game =>
    { res := .ok (),
      st := { st₃ with
        partyGameid := aset st₃.partyGameid freshPartyid gameid,
        partySlotid := aset st₃.partySlotid freshPartyid slotid,
        partyHost := aset st₃.partyHost freshPartyid host,
        partyPorts := aset st₃.partyPorts freshPartyid ports },
      tasks := [SchedTask.launchGame gameid freshPartyid] }

end Redis

/-- Outcome of the token gate: either the verified claims or an HTTP
rejection with its status code and error phrase. -/
inductive AuthResult
  | ok (jwt : TokenClaims)
  | err (status : Nat) (phrase : String)
deriving DecidableEq, Repr

/-- Python's `str.startswith`, on character lists. -/
def str_startswith : List Char → List Char → Bool
  | _, [] => true
  | [], _ :: _ => false
  | c :: s, p :: ps => if c = p then str_startswith s ps else false

/-- Python's `str.strip()`, on character lists. -/
def str_strip (s : List Char) : List Char :=
  ((s.dropWhile (fun c => c.isWhitespace)).reverse.dropWhile
    (fun c => c.isWhitespace)).reverse

/-- `authenticate` (middlewares.py:72-114).  `decodeTok` abstracts
`jwtlib.decode` (`none` models `InvalidTokenError`), `revoked` abstracts
`KVS.is_token_revoked`, `allowed` is the decorator's client-type set and
`header` the `Authorization` header.  A Python `str` appears as its
character list; an absent or empty header is falsy. -/
def authenticate (allowed : List ClientType) (decodeTok : List Char → Option TokenClaims)
    (revoked : Nat → Bool) (header : Option (List Char)) : AuthResult :=
  match header with
  | none => .err 401 "Authorization header required"
  | some bearer =>
    if bearer = [] then .err 401 "Authorization header required"
    else if !(str_startswith bearer "Bearer:".data) then
      .err 401 "Bearer authorization type required"
    else
      match decodeTok (str_strip (bearer.drop 7)) with
      | none => .err 403 "Invalid token"
      | some jwt =>
        if revoked jwt.jti then .err 403 "Revoked token"
        else if !(allowed.contains jwt.typ) then .err 403 "Restricted access"
        else .ok jwt

/-- `do_leave` (routes/groups.py:114-135) up to its storage effects:
`KVS.get_user` followed by `KVS.leave_group`, on the `InMemory` store. -/
def do_leave (st : InMemoryState) (userid : Nat) : OpResult InMemoryState Unit :=
  match InMemory.get_user st userid with
  | .error e => { res := .error e, st := st }
  | .ok _user => InMemory.leave_group st userid

/-- HTTP status produced by the admin route `DELETE /v1/groups/kick/<userid>`
(routes/groups.py:102-112): `PlayerNotInGroup` and `WrongGroupState` are
caught and logged, everything else propagates to the `safe_webapi`
exception handler (middlewares.py:35-45), which answers 400 for any
`WebAPIError`. -/
def kick_status (r : Except KVSError Unit) : Nat :=
  match r with
  | .ok _ => 204
  | .error .PlayerNotInGroup => 204
  | .error .WrongGroupState => 204
  | .error _ => 400

/-- HTTP status produced by the player route `DELETE /v1/groups/leave`
(routes/groups.py:95-100): nothing is caught, every `WebAPIError` becomes
a 400 through `safe_webapi`. -/
def leave_status (r : Except KVSError Unit) : Nat :=
  match r with
  | .ok _ => 204
  | .error _ => 400

namespace Fixtures

/-- One registered game: id 1, capacity 2. -/
def rdb1 : List Game := [⟨1, 2, [5000]⟩]

/-- Slot 7 holds player 10 of group 100 (`IN_QUEUE`); group 101 (player 11,
ready, `GROUP_CHECK`) is about to join the queue of game 1. -/
def stA : InMemoryState :=
  { users := [(10, ⟨some 100, none, true⟩), (11, ⟨some 101, none, true⟩)],
    groups := [(100, ⟨.IN_QUEUE, [10], 1, some 7, none⟩),
               (101, ⟨.GROUP_CHECK, [11], 1, none, none⟩)],
    queues := [(1, [7])],
    slots := [(7, ⟨[10], [100]⟩)] }

/-- Group 102 (`GROUP_CHECK`) whose only member 12 is not ready. -/
def stB : InMemoryState :=
  { users := [(12, ⟨some 102, none, false⟩)],
    groups := [(102, ⟨.GROUP_CHECK, [12], 1, none, none⟩)] }

/-- The same configuration as `stB` on the Redis store. -/
def stBr : RedisState :=
  { userGroup := [(12, 102)], userReady := [(12, false)],
    groupState := [(102, .GROUP_CHECK)], groupGameid := [(102, 1)],
    groupMembers := [(102, [12])] }

/-- Group 103 (`IN_QUEUE`) is alone in slot 8, which is queued for game 1,
on the Redis store. -/
def stC : RedisState :=
  { userGroup := [(13, 103)], userReady := [(13, true)],
    groupState := [(103, .IN_QUEUE)], groupGameid := [(103, 1)],
    groupSlotid := [(103, 8)], groupMembers := [(103, [13])],
    queues := [(1, [8])], slotPlayers := [(8, [13])], slotGroups := [(8, [103])] }

/-- The same configuration as `stC` on the `InMemory` store. -/
def stCi : InMemoryState :=
  { users := [(13, ⟨some 103, none, true⟩)],
    groups := [(103, ⟨.IN_QUEUE, [13], 1, some 8, none⟩)],
    queues := [(1, [8])], slots := [(8, ⟨[13], [103]⟩)] }

/-- Group 104 (`IN_QUEUE`, members 14 and 15) is alone in queued slot 9. -/
def stD : InMemoryState :=
  { users := [(14, ⟨some 104, none, true⟩), (15, ⟨some 104, none, true⟩)],
    groups := [(104, ⟨.IN_QUEUE, [14, 15], 1, some 9, none⟩)],
    queues := [(1, [9])], slots := [(9, ⟨[14, 15], [104]⟩)] }

/-- The same configuration as `stD` on the Redis store. -/
def stDr : RedisState :=
  { userGroup := [(14, 104), (15, 104)], userReady := [(14, true), (15, true)],
    groupState := [(104, .IN_QUEUE)], groupGameid := [(104, 1)],
    groupSlotid := [(104, 9)], groupMembers := [(104, [14, 15])],
    queues := [(1, [9])], slotPlayers := [(9, [14, 15])], slotGroups := [(9, [104])] }

/-- User 16, already ready, in group 105 (`GROUP_CHECK`). -/
def stE : InMemoryState :=
  { users := [(16, ⟨some 105, none, true⟩)],
    groups := [(105, ⟨.GROUP_CHECK, [16], 1, none, none⟩)] }

/-- User 17 in group 106, which is `PLAYING`. -/
def stF : InMemoryState :=
  { users := [(17, ⟨some 106, some 400, true⟩)],
    groups := [(106, ⟨.PLAYING, [17], 1, some 10, some 400⟩)] }

end Fixtures

/-! ## Library lemmas about the association-list operations -/

theorem aget_aset_self {β : Type} (m : List (Nat × β)) (k : Nat) (v : β) :
    aget (aset m k v) k = some v := by
  induction m with
  | nil => simp [aget, aset]
  | cons e rest ih =>
    obtain ⟨k', v'⟩ := e
    by_cases h : k' = k
    · simp [aset, h, aget]
    · simp [aset, h, aget, ih]

theorem aget_aset_ne {β : Type} (m : List (Nat × β)) {k k' : Nat} (v : β) (h : k ≠ k') :
    aget (aset m k v) k' = aget m k' := by
  induction m with
  | nil => simp [aget, aset, h]
  | cons e rest ih =>
    obtain ⟨k₀, v₀⟩ := e
    by_cases h₀ : k₀ = k
    · simp [aset, h₀, aget, h]
    · simp only [aset, if_neg h₀, aget]
      by_cases h₁ : k₀ = k'
      · simp [h₁]
      · simp [h₁, ih]

theorem aset_aset {β : Type} (m : List (Nat × β)) (k : Nat) (v w : β) :
    aset (aset m k v) k w = aset m k w := by
  induction m with
  | nil => simp [aset]
  | cons e rest ih =>
    obtain ⟨k₀, v₀⟩ := e
    by_cases h : k₀ = k
    · simp [aset, h]
    · simp [aset, h, ih]

theorem aget_aset_isSome {β : Type} (m : List (Nat × β)) (k k' : Nat) (v : β)
    (h : (aget m k').isSome) : (aget (aset m k v) k').isSome := by
  by_cases hk : k = k'
  · subst hk; simp [aget_aset_self]
  · rw [aget_aset_ne m v hk]; exact h

/-- `InMemory.leave_queue` never touches the user sessions. -/
theorem leave_queue_im_users (st : InMemoryState) (g : Nat) :
    (InMemory.leave_queue st g).st.users = st.users := by
  unfold InMemory.leave_queue
  dsimp only
  repeat' split
  all_goals rfl

/-- `Redis.leave_queue` never touches the ready flags. -/
theorem leave_queue_r_userReady (st : RedisState) (g : Nat) :
    (Redis.leave_queue st g).st.userReady = st.userReady := by
  unfold Redis.leave_queue
  dsimp only
  repeat' split
  all_goals rfl

/-- `sunion` with an empty first set copies the second. -/
theorem sunion_nil (b : List Nat) : sunion [] b = b := by
  simp [sunion]

/-- Packing loop of the `InMemory` driver: if every slot of the queue
segment `q₁` is present but does not fit, and `s` fits, the loop packs the
group into `s`. -/
theorem pack_loop_im_fit (st : InMemoryState) (groupid : Nat) (group : Group)
    (gameid cap : Nat) (q₁ : List Nat) :
    ∀ (q₂ : List Nat) (s : Nat) (slot : Slot),
    aget st.slots s = some slot →
    slot.players.length + group.members.length ≤ cap →
    (∀ s' ∈ q₁, ∃ sl, aget st.slots s' = some sl ∧
        cap < sl.players.length + group.members.length) →
    InMemory.pack_loop st groupid group gameid cap (q₁ ++ s :: q₂) =
      .ok (some
        ({ st with
            slots := aset st.slots s
              { slot with players := slot.players ++ group.members,
                          groups := slot.groups ++ [groupid] },
            groups := aset st.groups groupid { group with slotid := some s } },
         if slot.players.length + group.members.length = cap
         then [SchedTask.startGame gameid s] else [])) := by
  induction q₁ with
  | nil =>
    intro q₂ s slot hslot hfit _
    simp only [List.nil_append, InMemory.pack_loop, hslot]
    rw [if_pos hfit]
  | cons a q₁ ih =>
    intro q₂ s slot hslot hfit hbefore
    obtain ⟨sl, hsl, hbig⟩ := hbefore a (List.mem_cons_self ..)
    simp only [List.cons_append, InMemory.pack_loop, hsl]
    rw [if_neg (by omega)]
    exact ih q₂ s slot hslot hfit (fun s' hs' => hbefore s' (List.mem_cons_of_mem _ hs'))

/-- Packing loop of the `InMemory` driver: if no queued slot fits, the loop
falls through. -/
theorem pack_loop_im_none (st : InMemoryState) (groupid : Nat) (group : Group)
    (gameid cap : Nat) :
    ∀ (q : List Nat),
    (∀ s' ∈ q, ∃ sl, aget st.slots s' = some sl ∧
        cap < sl.players.length + group.members.length) →
    InMemory.pack_loop st groupid group gameid cap q = .ok none := by
  intro q
  induction q with
  | nil => intro _; rfl
  | cons a q ih =>
    intro hbig
    obtain ⟨sl, hsl, hbig'⟩ := hbig a (List.mem_cons_self ..)
    simp only [InMemory.pack_loop, hsl]
    rw [if_neg (by omega)]
    exact ih (fun s' hs' => hbig s' (List.mem_cons_of_mem _ hs'))

/-- Packing loop of the Redis driver: first fitting slot wins. -/
theorem pack_loop_r_fit (st : RedisState) (groupid : Nat) (members : List Nat)
    (gameid cap : Nat) (q₁ : List Nat) :
    ∀ (q₂ : List Nat) (s : Nat),
    ((aget st.slotPlayers s).getD []).length + members.length ≤ cap →
    (∀ s' ∈ q₁, cap < ((aget st.slotPlayers s').getD []).length + members.length) →
    Redis.pack_loop st groupid members gameid cap (q₁ ++ s :: q₂) =
      some
        ({ st with
            groupSlotid := aset st.groupSlotid groupid s,
            slotPlayers := aset st.slotPlayers s
              (sunion ((aget st.slotPlayers s).getD []) members),
            slotGroups := aset st.slotGroups s
              (sadd ((aget st.slotGroups s).getD []) groupid) },
         if ((aget st.slotPlayers s).getD []).length + members.length = cap
         then [SchedTask.startGame gameid s] else []) := by
  induction q₁ with
  | nil =>
    intro q₂ s hfit _
    simp only [List.nil_append, Redis.pack_loop]
    rw [if_pos hfit]
  | cons a q₁ ih =>
    intro q₂ s hfit hbefore
    have hbig := hbefore a (List.mem_cons_self ..)
    simp only [List.cons_append, Redis.pack_loop]
    rw [if_neg (by omega)]
    exact ih q₂ s hfit (fun s' hs' => hbefore s' (List.mem_cons_of_mem _ hs'))

/-- Packing loop of the Redis driver: if no queued slot fits, the loop
falls through. -/
theorem pack_loop_r_none (st : RedisState) (groupid : Nat) (members : List Nat)
    (gameid cap : Nat) :
    ∀ (q : List Nat),
    (∀ s' ∈ q, cap < ((aget st.slotPlayers s').getD []).length + members.length) →
    Redis.pack_loop st groupid members gameid cap q = none := by
  intro q
  induction q with
  | nil => intro _; rfl
  | cons a q ih =>
    intro hbig
    have hbig' := hbig a (List.mem_cons_self ..)
    simp only [Redis.pack_loop]
    rw [if_neg (by omega)]
    exact ih (fun s' hs' => hbig s' (List.mem_cons_of_mem _ hs'))

/-- `get_game_by_id` returns a game carrying the requested id. -/
theorem get_game_by_id_gameid (rdb : List Game) (gid : Nat) (game : Game)
    (h : Postgres.get_game_by_id rdb gid = .ok game) : game.gameid = gid := by
  unfold Postgres.get_game_by_id at h
  cases hf : rdb.find? (fun g => g.gameid == gid) with
  | none => rw [hf] at h; cases h
  | some g =>
    rw [hf] at h
    injection h with h'
    subst h'
    have := List.find?_some hf
    simpa using this

/-- Run lemma: `InMemory.join_queue` on a ready group when the first
fitting queued slot is `s` (everything in `q₁` is too full). -/
theorem join_queue_im_fit_run (rdb : List Game) (st : InMemoryState)
    (groupid freshSlotid : Nat) (group : Group) (game : Game)
    (q₁ q₂ : List Nat) (s : Nat) (slot : Slot)
    (hg : aget st.groups groupid = some group)
    (hstate : group.state = .GROUP_CHECK)
    (hready : InMemory.ready_check st.users group.members = none)
    (hgame : Postgres.get_game_by_id rdb group.gameid = .ok game)
    (hqs : aget st.queues game.gameid = some (q₁ ++ s :: q₂))
    (hslot : aget st.slots s = some slot)
    (hfit : slot.players.length + group.members.length ≤ game.capacity)
    (hbefore : ∀ s' ∈ q₁, ∃ sl, aget st.slots s' = some sl ∧
        game.capacity < sl.players.length + group.members.length) :
    InMemory.join_queue rdb st groupid freshSlotid =
      { res := .ok (),
        st := { st with
          groups := (aset (aset st.groups groupid { group with state := .IN_QUEUE })
            groupid { group with state := .IN_QUEUE, slotid := some s }),
          slots := (aset st.slots s
            { slot with players := slot.players ++ group.members,
                        groups := slot.groups ++ [groupid] }) },
        tasks := if slot.players.length + group.members.length = game.capacity
                 then [SchedTask.startGame game.gameid s] else [] } := by
  have hpack := pack_loop_im_fit
    ({ st with groups := aset st.groups groupid { group with state := .IN_QUEUE } })
    groupid { group with state := .IN_QUEUE } game.gameid game.capacity
    q₁ q₂ s slot hslot hfit hbefore
  simp only [InMemory.join_queue, hg]
  rw [if_neg (by simp [hstate])]
  simp only [hready, hgame, hqs, Option.getD_some, hpack]
  try rfl

/-- Run lemma: `Redis.join_queue` on a ready group when the first fitting
queued slot is `s`. -/
theorem join_queue_r_fit_run (rdb : List Game) (st : RedisState)
    (groupid freshSlotid gameid : Nat) (game : Game) (members : List Nat)
    (q₁ q₂ : List Nat) (s : Nat)
    (hgm : aget st.groupGameid groupid = some gameid)
    (hst : aget st.groupState groupid = some .GROUP_CHECK)
    (hrdy : Redis.is_group_ready st groupid = true)
    (hgame : Postgres.get_game_by_id rdb gameid = .ok game)
    (hmem : members = (aget st.groupMembers groupid).getD [])
    (hqs : (aget st.queues gameid).getD [] = q₁ ++ s :: q₂)
    (hfit : ((aget st.slotPlayers s).getD []).length + members.length ≤ game.capacity)
    (hbefore : ∀ s' ∈ q₁,
        game.capacity < ((aget st.slotPlayers s').getD []).length + members.length) :
    Redis.join_queue rdb st groupid freshSlotid =
      { res := .ok (),
        st := { st with
          groupState := (aset st.groupState groupid .IN_QUEUE),
          groupSlotid := (aset st.groupSlotid groupid s),
          slotPlayers := (aset st.slotPlayers s
            (sunion ((aget st.slotPlayers s).getD []) members)),
          slotGroups := (aset st.slotGroups s
            (sadd ((aget st.slotGroups s).getD []) groupid)) },
        tasks := if ((aget st.slotPlayers s).getD []).length + members.length =
            game.capacity
          then [SchedTask.startGame gameid s] else [] } := by
  have hpack := pack_loop_r_fit
    ({ st with groupState := aset st.groupState groupid .IN_QUEUE })
    groupid members gameid game.capacity q₁ q₂ s hfit hbefore
  simp only [Redis.join_queue, hgm, hst]
  rw [if_neg (by simp), if_neg (by simp [hrdy])]
  simp only [hgame, ← hmem, hqs, hpack]
  try rfl

/-- The group loop of `InMemory.start_game`, on a group list of the shape
`l ++ [g₀]`: when every listed group exists, the loop succeeds and the
final loop variable holds `g₀`'s record set to `PLAYING`. -/
theorem set_groups_playing_append (l : List Nat) :
    ∀ (groups : List (Nat × Group)) (partyid g₀ : Nat) (grec : Group),
    (∀ g ∈ l, (aget groups g).isSome) →
    g₀ ∉ l →
    aget groups g₀ = some grec →
    ∃ groups', InMemory.set_groups_playing groups partyid (l ++ [g₀]) =
      (groups', some { grec with state := .PLAYING, partyid := some partyid }, none) := by
  induction l with
  | nil =>
    intro groups partyid g₀ grec _ _ hg
    refine ⟨aset groups g₀ { grec with state := .PLAYING, partyid := some partyid }, ?_⟩
    simp [InMemory.set_groups_playing, hg]
  | cons a l ih =>
    intro groups partyid g₀ grec hpres hnot hg
    obtain ⟨ga, hga⟩ := Option.isSome_iff_exists.mp (hpres a (List.mem_cons_self ..))
    have hnot' : g₀ ∉ l := fun h => hnot (List.mem_cons_of_mem _ h)
    have hne : a ≠ g₀ := fun h => hnot (h ▸ List.mem_cons_self ..)
    obtain ⟨groups', hrec⟩ := ih
      (aset groups a { ga with state := .PLAYING, partyid := some partyid })
      partyid g₀ grec
      (fun g hgmem => aget_aset_isSome _ _ _ _ (hpres g (List.mem_cons_of_mem _ hgmem)))
      hnot'
      (by rw [aget_aset_ne _ _ hne]; exact hg)
    refine ⟨groups', ?_⟩
    simp [List.cons_append, InMemory.set_groups_playing, hga, hrec]

/-- The player loop of `InMemory.start_game` succeeds when every listed
player has a session. -/
theorem set_users_partyid_ok (l : List Nat) :
    ∀ (users : List (Nat × UserKVS)) (partyid : Nat),
    (∀ u ∈ l, (aget users u).isSome) →
    ∃ users', InMemory.set_users_partyid users partyid l = (users', none) := by
  induction l with
  | nil => intro users partyid _; exact ⟨users, rfl⟩
  | cons a l ih =>
    intro users partyid hpres
    obtain ⟨ua, hua⟩ := Option.isSome_iff_exists.mp (hpres a (List.mem_cons_self ..))
    obtain ⟨users', hrec⟩ := ih (aset users a { ua with partyid := some partyid }) partyid
      (fun u hu => aget_aset_isSome _ _ _ _ (hpres u (List.mem_cons_of_mem _ hu)))
    exact ⟨users', by simp [InMemory.set_users_partyid, hua, hrec]⟩

/-- Run lemma for `InMemory.start_game`: under well-formedness of the slot
it succeeds and removes the slot id from the queue of the last group's
game. -/
theorem start_game_im_run (rdb : List Game) (st : InMemoryState)
    (gameid sid pid : Nat) (host : String) (ports : List Nat)
    (slot : Slot) (l : List Nat) (g₀ : Nat) (grec : Group) (game : Game) (q : List Nat)
    (hslot : aget st.slots sid = some slot)
    (hgroups : slot.groups = l ++ [g₀])
    (hpresg : ∀ g ∈ l, (aget st.groups g).isSome)
    (hnot : g₀ ∉ l)
    (hg0 : aget st.groups g₀ = some grec)
    (hpresu : ∀ u ∈ slot.players, (aget st.users u).isSome)
    (hque : aget st.queues grec.gameid = some q)
    (hsid : grec.slotid = some sid)
    (hcont : q.contains sid = true)
    (hgame : Postgres.get_game_by_id rdb gameid = .ok game) :
    (InMemory.start_game rdb st gameid sid pid host ports).res = .ok () ∧
    (InMemory.start_game rdb st gameid sid pid host ports).st.queues =
      aset st.queues grec.gameid (q.erase sid) := by
  obtain ⟨groups', hsgp⟩ :=
    set_groups_playing_append l st.groups pid g₀ grec hpresg hnot hg0
  obtain ⟨users', hsup⟩ := set_users_partyid_ok slot.players st.users pid hpresu
  have hrun : InMemory.start_game rdb st gameid sid pid host ports =
      { res := .ok (),
        st := { st with
          groups := groups'
          users := users'
          queues := (aset st.queues grec.gameid (q.erase sid))
          parties := (aset st.parties pid ⟨gameid, sid, host, ports⟩) },
        tasks := [SchedTask.launchGame gameid pid] } := by
    simp only [InMemory.start_game, hslot, hgroups, hsgp, hsup, hsid, hque]
    rw [if_pos hcont]
    simp only [hgame]
    try rfl
  rw [hrun]
  exact ⟨rfl, rfl⟩

/-- `Redis.set_groups_playing` never touches the queues. -/
theorem set_groups_playing_r_queues (l : List Nat) :
    ∀ (st : RedisState) (partyid : Nat),
    (Redis.set_groups_playing st partyid l).queues = st.queues ∧
    (Redis.set_groups_playing st partyid l).slotPlayers = st.slotPlayers := by
  induction l with
  | nil => intro st partyid; exact ⟨rfl, rfl⟩
  | cons a l ih =>
    intro st partyid
    simpa [Redis.set_groups_playing] using ih _ partyid

/-- `Redis.set_users_partyid` never touches the queues. -/
theorem set_users_partyid_r_queues (l : List Nat) :
    ∀ (st : RedisState) (partyid : Nat),
    (Redis.set_users_partyid st partyid l).queues = st.queues := by
  induction l with
  | nil => intro st partyid; rfl
  | cons a l ih =>
    intro st partyid
    simpa [Redis.set_users_partyid] using ih _ partyid

/-- Run lemma for `Redis.start_game`: it succeeds and removes the slot id
from the game's queue (here the `lrem` *is* awaited). -/
theorem start_game_r_queue (rdb : List Game) (st : RedisState)
    (gameid slotid pid : Nat) (host : String) (ports : List Nat) (game : Game)
    (hgame : Postgres.get_game_by_id rdb gameid = .ok game) :
    (Redis.start_game rdb st gameid slotid pid host ports).res = .ok () ∧
    (Redis.start_game rdb st gameid slotid pid host ports).st.queues =
      aset ((Redis.set_users_partyid
          (Redis.set_groups_playing st pid ((aget st.slotGroups slotid).getD []))
          pid
          ((aget (Redis.set_groups_playing st pid
              ((aget st.slotGroups slotid).getD [])).slotPlayers slotid).getD [])).queues)
        gameid
        (((aget st.queues gameid).getD []).erase slotid) := by
  constructor
  · simp only [Redis.start_game, hgame]
  · simp only [Redis.start_game, hgame]
    have h₁ := set_groups_playing_r_queues ((aget st.slotGroups slotid).getD []) st pid
    rw [set_users_partyid_r_queues, h₁.1]

/-! ## Settled claims: concrete evaluations -/

/-- Claim C3 (code bug): with a not-ready member, `join_queue` raises
`GroupNotReady` in both stores, but while the Redis driver leaves the group
in `GROUP_CHECK` (it checks readiness before switching the state), the
`InMemory` driver switches the state to `IN_QUEUE` *before* the readiness
loop, so after the failed call the group is left in `IN_QUEUE`, not
`GROUP_CHECK`. -/
theorem c3_group_not_ready_keeps_state :
    (Redis.join_queue Fixtures.rdb1 Fixtures.stBr 102 99).res = .error .GroupNotReady ∧
    aget (Redis.join_queue Fixtures.rdb1 Fixtures.stBr 102 99).st.groupState 102 =
      some .GROUP_CHECK ∧
    (InMemory.join_queue Fixtures.rdb1 Fixtures.stB 102 99).res = .error .GroupNotReady ∧
    (aget (InMemory.join_queue Fixtures.rdb1 Fixtures.stB 102 99).st.groups 102).map
      Group.state = some .IN_QUEUE := by
  decide

/-- Claim C4 (code bug): a group that is alone in its slot leaves the queue.
The `InMemory` driver removes the emptied slot from the queue, deletes the
slot entity, clears `slotid` and returns the group to `GROUP_CHECK`.  The
Redis driver empties the slot's member sets, but its `lrem` call is missing
an `await`, so the empty slot id stays in the queue, and the group's
`slotid` key is never cleared. -/
theorem c4_leave_queue_divergence :
    (InMemory.leave_queue Fixtures.stCi 103).res = .ok () ∧
    aget (InMemory.leave_queue Fixtures.stCi 103).st.queues 1 = some [] ∧
    aget (InMemory.leave_queue Fixtures.stCi 103).st.slots 8 = none ∧
    aget (InMemory.leave_queue Fixtures.stCi 103).st.groups 103 =
      some ⟨.GROUP_CHECK, [13], 1, none, none⟩ ∧
    (Redis.leave_queue Fixtures.stC 103).res = .ok () ∧
    aget (Redis.leave_queue Fixtures.stC 103).st.slotPlayers 8 = some [] ∧
    aget (Redis.leave_queue Fixtures.stC 103).st.slotGroups 8 = some [] ∧
    aget (Redis.leave_queue Fixtures.stC 103).st.queues 1 = some [8] ∧
    aget (Redis.leave_queue Fixtures.stC 103).st.groupSlotid 103 = some 8 ∧
    aget (Redis.leave_queue Fixtures.stC 103).st.groupState 103 = some .GROUP_CHECK := by
  decide

/-- Claim C5 (code bug): a member of an `IN_QUEUE` group leaves the group.
The Redis driver awaits `leave_queue` first (the slot's member sets are
emptied, the state returns to `GROUP_CHECK`), then deletes the caller's
session and membership and schedules `group_cleanup`.  The `InMemory`
driver's call `self.leave_queue(self, None, group)` builds a coroutine that
is never awaited, so nothing of `leave_queue` happens: the departed user is
still listed in the slot, the group keeps state `IN_QUEUE` and its
`slotid`. -/
theorem c5_leave_group_divergence :
    (InMemory.leave_group Fixtures.stD 14).res = .ok () ∧
    aget (InMemory.leave_group Fixtures.stD 14).st.users 14 = none ∧
    (aget (InMemory.leave_group Fixtures.stD 14).st.groups 104).map Group.members =
      some [15] ∧
    aget (InMemory.leave_group Fixtures.stD 14).st.slots 9 = some ⟨[14, 15], [104]⟩ ∧
    (aget (InMemory.leave_group Fixtures.stD 14).st.groups 104).map Group.state =
      some .IN_QUEUE ∧
    (aget (InMemory.leave_group Fixtures.stD 14).st.groups 104).map Group.slotid =
      some (some 9) ∧
    (Redis.leave_group Fixtures.stDr 14).res = .ok () ∧
    aget (Redis.leave_group Fixtures.stDr 14).st.userGroup 14 = none ∧
    aget (Redis.leave_group Fixtures.stDr 14).st.userReady 14 = none ∧
    aget (Redis.leave_group Fixtures.stDr 14).st.slotPlayers 9 = some [] ∧
    aget (Redis.leave_group Fixtures.stDr 14).st.groupMembers 104 = some [15] ∧
    aget (Redis.leave_group Fixtures.stDr 14).st.groupState 104 = some .GROUP_CHECK ∧
    (Redis.leave_group Fixtures.stDr 14).tasks = [SchedTask.groupCleanup 104] := by
  decide

/-- Claim C7 (code bug): `create_group` with an unknown game id.  On the
Redis driver the claim's `GameDoesntExist` is unreachable: `get_game_by_id`
raises `NotFoundError` instead of returning `None`, and that error is what
propagates.  On the `InMemory` driver there is no game check at all and the
group is created.  The remaining success and `PlayerInGroupAlready`
behaviour matches the claim. -/
theorem c7_create_group_game_check :
    (Redis.create_group Fixtures.rdb1 ({} : RedisState) 20 2 300).res = .error .NotFoundErr ∧
    ¬ ((Redis.create_group Fixtures.rdb1 ({} : RedisState) 20 2 300).res =
        .error .GameDoesntExist) ∧
    (Redis.create_group Fixtures.rdb1 ({} : RedisState) 20 2 300).st = ({} : RedisState) ∧
    (InMemory.create_group ({} : InMemoryState) 20 2 300).res = .ok 300 ∧
    aget (InMemory.create_group ({} : InMemoryState) 20 2 300).st.groups 300 =
      some ⟨.GROUP_CHECK, [20], 2, none, none⟩ ∧
    (Redis.create_group Fixtures.rdb1 ({} : RedisState) 20 1 300).res = .ok 300 ∧
    aget (Redis.create_group Fixtures.rdb1 ({} : RedisState) 20 1 300).st.groupState 300 =
      some .GROUP_CHECK ∧
    aget (Redis.create_group Fixtures.rdb1 ({} : RedisState) 20 1 300).st.groupMembers 300 =
      some [20] ∧
    aget (Redis.create_group Fixtures.rdb1 ({} : RedisState) 20 1 300).st.userGroup 20 =
      some 300 ∧
    aget (Redis.create_group Fixtures.rdb1 ({} : RedisState) 20 1 300).st.userReady 20 =
      some false ∧
    (Redis.create_group Fixtures.rdb1
      ({ userGroup := [(20, 300)] } : RedisState) 20 1 301).res =
      .error .PlayerInGroupAlready := by
  decide

/-- Claim C2 counterexample: in `stA`, group 101 (one ready member) joins
the queue of game 1 (capacity 2) and fills slot 7 to exactly the capacity,
yet when `join_queue` returns, slot 7 is *still* in the queue of game 1:
the removal only happens inside the asynchronously scheduled `start_game`. -/
theorem c2_full_slot_still_queued_counterexample :
    (InMemory.join_queue Fixtures.rdb1 Fixtures.stA 101 99).res = .ok () ∧
    Postgres.get_game_by_id Fixtures.rdb1 1 = .ok ⟨1, 2, [5000]⟩ ∧
    aget (InMemory.join_queue Fixtures.rdb1 Fixtures.stA 101 99).st.slots 7 =
      some ⟨[10, 11], [100, 101]⟩ ∧
    7 ∈ (aget (InMemory.join_queue Fixtures.rdb1 Fixtures.stA 101 99).st.queues 1).getD [] := by
  decide

/-- Claim C6 counterexample: in `stD` (group 104 `IN_QUEUE`), the `InMemory`
driver records the caller's ready-flag write *before* the `leave_queue`
call, so `leave_queue` does not come first as the claim states for both
stores. -/
theorem c6_not_ready_order_counterexample :
    (InMemory.mark_as_not_ready Fixtures.stD 14).trace =
      [Event.setReady 14 false, Event.leaveQueue 104] ∧
    ¬ ((InMemory.mark_as_not_ready Fixtures.stD 14).trace.indexOf (Event.leaveQueue 104) <
        (InMemory.mark_as_not_ready Fixtures.stD 14).trace.indexOf
          (Event.setReady 14 false)) := by
  decide

/-- Claim C9 counterexample: user 16 is already ready in `stE`.  After
`mark_as_ready` followed by `mark_as_not_ready`, the readiness flag is
`false`, which differs from its original value `true`: the pair does not
restore an arbitrary original value. -/
theorem c9_ready_roundtrip_counterexample :
    aget Fixtures.stE.users 16 = some ⟨some 105, none, true⟩ ∧
    aget (InMemory.mark_as_not_ready
        (InMemory.mark_as_ready Fixtures.stE 16).st 16).st.users 16 =
      some ⟨some 105, none, false⟩ ∧
    ¬ (aget (InMemory.mark_as_not_ready
          (InMemory.mark_as_ready Fixtures.stE 16).st 16).st.users 16 =
        aget Fixtures.stE.users 16) := by
  decide

/-! ## Settled claims: general theorems -/

/-- Claim C9 (amended): for a user whose group state permits both
operations, `mark_as_ready` followed by `mark_as_not_ready` always leaves
the readiness flag `false`; this restores the value from before the pair
exactly when the user was not ready originally. -/
theorem c9_ready_roundtrip (st : InMemoryState) (userid gid : Nat) (user : UserKVS)
    (group : Group)
    (hu : aget st.users userid = some user)
    (hga : user.groupid = some gid)
    (hg : aget st.groups gid = some group)
    (hstate : group.state = .GROUP_CHECK ∨ group.state = .PARTY_CHECK) :
    aget (InMemory.mark_as_not_ready (InMemory.mark_as_ready st userid).st userid).st.users
        userid = some { user with ready := false } ∧
    (aget (InMemory.mark_as_not_ready (InMemory.mark_as_ready st userid).st userid).st.users
        userid = some user ↔ user.ready = false) := by
  obtain ⟨ugr, upr, urd⟩ := user
  simp only [UserKVS.groupid] at hga
  subst hga
  have hnotq : group.state ≠ .IN_QUEUE := by rcases hstate with h | h <;> simp [h]
  have h1 : (InMemory.mark_as_ready st userid).st =
      { st with users := aset st.users userid ⟨some gid, upr, true⟩ } := by
    simp only [InMemory.mark_as_ready, hu, hg]
    rw [if_pos hstate]
  rw [h1]
  have hu2 : aget (aset st.users userid (⟨some gid, upr, true⟩ : UserKVS)) userid =
      some ⟨some gid, upr, true⟩ := aget_aset_self ..
  have hcond : group.state = .GROUP_CHECK ∨ group.state = .IN_QUEUE ∨
      group.state = .PARTY_CHECK := by tauto
  have h2 : (InMemory.mark_as_not_ready
      { st with users := aset st.users userid (⟨some gid, upr, true⟩ : UserKVS) } userid).st =
      { st with users := (aset (aset st.users userid (⟨some gid, upr, true⟩ : UserKVS)) userid
          (⟨some gid, upr, false⟩ : UserKVS)) } := by
    simp only [InMemory.mark_as_not_ready, hu2, hg]
    rw [if_pos hcond, if_neg hnotq]
  rw [h2]
  have h3 : aget (aset (aset st.users userid (⟨some gid, upr, true⟩ : UserKVS)) userid
      (⟨some gid, upr, false⟩ : UserKVS)) userid = some ⟨some gid, upr, false⟩ :=
    aget_aset_self ..
  refine ⟨h3, ?_⟩
  rw [h3]
  simp [eq_comm]

/-- Claim C10: through the admin kick route, `PlayerNotInGroup` and
`WrongGroupState` raised by the leave operation are suppressed and the
route answers 204; through the player's own leave route the same errors
surface as HTTP 400. -/
theorem c10_admin_kick_suppresses :
    (∀ (st : InMemoryState) (userid : Nat),
      aget st.users userid = none →
        (do_leave st userid).res = .error .PlayerNotInGroup ∧
        kick_status (do_leave st userid).res = 204 ∧
        leave_status (do_leave st userid).res = 400) ∧
    (∀ (st : InMemoryState) (userid gid : Nat) (user : UserKVS) (group : Group),
      aget st.users userid = some user →
      user.groupid = some gid →
      aget st.groups gid = some group →
      group.state = .PLAYING →
        (do_leave st userid).res = .error .WrongGroupState ∧
        kick_status (do_leave st userid).res = 204 ∧
        leave_status (do_leave st userid).res = 400) := by
  constructor
  · intro st userid hu
    have h : (do_leave st userid).res = .error .PlayerNotInGroup := by
      simp only [do_leave, InMemory.get_user, hu]
    exact ⟨h, by rw [h]; rfl, by rw [h]; rfl⟩
  · intro st userid gid user group hu hga hg hstate
    have h : (do_leave st userid).res = .error .WrongGroupState := by
      simp only [do_leave, InMemory.get_user, hu, InMemory.leave_group, hga, hg]
      rw [if_neg (by simp [hstate])]
    exact ⟨h, by rw [h]; rfl, by rw [h]; rfl⟩

/-- Claim C10 witness: an unknown user and a `PLAYING` group, concretely. -/
theorem c10_admin_kick_witness :
    ((do_leave ({} : InMemoryState) 30).res = .error .PlayerNotInGroup ∧
      kick_status (do_leave ({} : InMemoryState) 30).res = 204 ∧
      leave_status (do_leave ({} : InMemoryState) 30).res = 400) ∧
    ((do_leave Fixtures.stF 17).res = .error .WrongGroupState ∧
      kick_status (do_leave Fixtures.stF 17).res = 204 ∧
      leave_status (do_leave Fixtures.stF 17).res = 400) :=
  ⟨c10_admin_kick_suppresses.1 {} 30 rfl,
   c10_admin_kick_suppresses.2 Fixtures.stF 17 106 ⟨some 106, some 400, true⟩
     ⟨.PLAYING, [17], 1, some 10, some 400⟩ (by decide) rfl (by decide) rfl⟩

/-- Claim C6 (amended): for a group in `IN_QUEUE`, the Redis driver
performs `leave_queue` before clearing the caller's ready flag, while the
`InMemory` driver clears the caller's flag first and then performs
`leave_queue`; in both drivers only the caller's readiness changes. -/
theorem c6_not_ready_leave_queue_order :
    (∀ (st : InMemoryState) (userid gid : Nat) (user : UserKVS) (group : Group),
      aget st.users userid = some user →
      user.groupid = some gid →
      aget st.groups gid = some group →
      group.state = .IN_QUEUE →
        (InMemory.mark_as_not_ready st userid).trace =
          [Event.setReady userid false, Event.leaveQueue gid] ∧
        aget (InMemory.mark_as_not_ready st userid).st.users userid =
          some { user with ready := false } ∧
        (∀ v, v ≠ userid →
          aget (InMemory.mark_as_not_ready st userid).st.users v = aget st.users v)) ∧
    (∀ (st : RedisState) (userid gid sid gm : Nat),
      aget st.userGroup userid = some gid →
      aget st.groupState gid = some .IN_QUEUE →
      aget st.groupSlotid gid = some sid →
      aget st.groupGameid gid = some gm →
        (Redis.mark_as_not_ready st userid).trace =
          [Event.leaveQueue gid, Event.setReady userid false] ∧
        aget (Redis.mark_as_not_ready st userid).st.userReady userid = some false ∧
        (∀ v, v ≠ userid →
          aget (Redis.mark_as_not_ready st userid).st.userReady v =
            aget st.userReady v)) := by
  constructor
  · intro st userid gid user group hu hga hg hstate
    have hrun : InMemory.mark_as_not_ready st userid =
        { res := (InMemory.leave_queue
            { st with users := aset st.users userid { user with ready := false } } gid).res,
          st := (InMemory.leave_queue
            { st with users := aset st.users userid { user with ready := false } } gid).st,
          tasks := (InMemory.leave_queue
            { st with users := aset st.users userid { user with ready := false } } gid).tasks,
          trace := [Event.setReady userid false, Event.leaveQueue gid] } := by
      simp only [InMemory.mark_as_not_ready, hu, hga, hg]
      rw [if_pos (Or.inr (Or.inl hstate)), if_pos hstate]
    rw [hrun]
    refine ⟨rfl, ?_, ?_⟩
    · rw [leave_queue_im_users]
      exact aget_aset_self ..
    · intro v hv
      rw [leave_queue_im_users]
      exact aget_aset_ne _ _ (fun h => hv h.symm)
  · intro st userid gid sid gm hu hst hsl hgm
    have hlv : (Redis.leave_queue st gid).res = .ok () := by
      simp only [Redis.leave_queue, hgm, hst, hsl]
      rw [if_neg (by simp)]
    have hrun : Redis.mark_as_not_ready st userid =
        { res := .ok (),
          st := { (Redis.leave_queue st gid).st with
            userReady := aset (Redis.leave_queue st gid).st.userReady userid false },
          trace := [Event.leaveQueue gid, Event.setReady userid false] } := by
      simp [Redis.mark_as_not_ready, hu, hst, hlv]
    rw [hrun]
    refine ⟨rfl, ?_, ?_⟩
    · exact aget_aset_self ..
    · intro v hv
      have h := @aget_aset_ne Bool (Redis.leave_queue st gid).st.userReady
        userid v false (fun h => hv h.symm)
      simpa [leave_queue_r_userReady] using h

/-- Claim C6 witness: the two drivers on the concrete `IN_QUEUE` group 104. -/
theorem c6_not_ready_order_witness :
    ((InMemory.mark_as_not_ready Fixtures.stD 14).trace =
        [Event.setReady 14 false, Event.leaveQueue 104] ∧
      aget (InMemory.mark_as_not_ready Fixtures.stD 14).st.users 14 =
        some ⟨some 104, none, false⟩ ∧
      (∀ v, v ≠ 14 → aget (InMemory.mark_as_not_ready Fixtures.stD 14).st.users v =
        aget Fixtures.stD.users v)) ∧
    ((Redis.mark_as_not_ready Fixtures.stDr 14).trace =
        [Event.leaveQueue 104, Event.setReady 14 false] ∧
      aget (Redis.mark_as_not_ready Fixtures.stDr 14).st.userReady 14 = some false ∧
      (∀ v, v ≠ 14 → aget (Redis.mark_as_not_ready Fixtures.stDr 14).st.userReady v =
        aget Fixtures.stDr.userReady v)) :=
  ⟨c6_not_ready_leave_queue_order.1 Fixtures.stD 14 104 ⟨some 104, none, true⟩
      ⟨.IN_QUEUE, [14, 15], 1, some 9, none⟩ (by decide) rfl (by decide) rfl,
   c6_not_ready_leave_queue_order.2 Fixtures.stDr 14 104 9 1
      (by decide) (by decide) (by decide) (by decide)⟩

/-- Claim C9 witness: the round trip on concrete user 16 (originally
ready), whose flag does not return to `true`. -/
theorem c9_ready_roundtrip_witness :
    aget (InMemory.mark_as_not_ready
        (InMemory.mark_as_ready Fixtures.stE 16).st 16).st.users 16 =
      some ⟨some 105, none, false⟩ ∧
    (aget (InMemory.mark_as_not_ready
        (InMemory.mark_as_ready Fixtures.stE 16).st 16).st.users 16 =
      some ⟨some 105, none, true⟩ ↔ (⟨some 105, none, true⟩ : UserKVS).ready = false) :=
  c9_ready_roundtrip Fixtures.stE 16 105 ⟨some 105, none, true⟩
    ⟨.GROUP_CHECK, [16], 1, none, none⟩ (by decide) rfl (by decide) (Or.inl rfl)

/-- Claim C8: the token gate rejects a missing header and a non-Bearer
scheme with 401, and an invalid, revoked or disallowed token with 403,
each with its own phrase ("Revoked token" for the revoked case); the five
phrases are pairwise distinct; and `revoke_token` prunes every entry of
the revocation set whose expiry lies before `now` before writing. -/
theorem c8_token_gate :
    (∀ allowed decodeTok revoked,
      authenticate allowed decodeTok revoked none =
        .err 401 "Authorization header required") ∧
    (∀ allowed decodeTok revoked (b : List Char), b ≠ [] →
      str_startswith b "Bearer:".data = false →
      authenticate allowed decodeTok revoked (some b) =
        .err 401 "Bearer authorization type required") ∧
    (∀ allowed decodeTok revoked (b : List Char),
      str_startswith b "Bearer:".data = true →
      decodeTok (str_strip (b.drop 7)) = none →
      authenticate allowed decodeTok revoked (some b) = .err 403 "Invalid token") ∧
    (∀ allowed decodeTok (st : RedisState) (b : List Char) (jwt : TokenClaims),
      str_startswith b "Bearer:".data = true →
      decodeTok (str_strip (b.drop 7)) = some jwt →
      Redis.is_token_revoked st jwt.jti = true →
      authenticate allowed decodeTok (fun j => Redis.is_token_revoked st j) (some b) =
        .err 403 "Revoked token") ∧
    (∀ allowed decodeTok revoked (b : List Char) (jwt : TokenClaims),
      str_startswith b "Bearer:".data = true →
      decodeTok (str_strip (b.drop 7)) = some jwt →
      revoked jwt.jti = false →
      allowed.contains jwt.typ = false →
      authenticate allowed decodeTok revoked (some b) = .err 403 "Restricted access") ∧
    (["Authorization header required", "Bearer authorization type required",
      "Invalid token", "Revoked token", "Restricted access"] : List String).Pairwise
        (fun a b => a ≠ b) ∧
    (∀ (st : RedisState) (now : Nat) (tok : TokenClaims) (e : Nat × Nat),
      e ∈ (Redis.revoke_token st now tok).trl → e.2 < now → e = (tok.jti, tok.exp)) := by
  have hne : ∀ (b : List Char), str_startswith b "Bearer:".data = true → b ≠ [] := by
    intro b hb h
    subst h
    exact absurd hb (by decide)
  refine ⟨?_, ?_, ?_, ?_, ?_, by decide, ?_⟩
  · intro allowed decodeTok revoked; rfl
  · intro allowed decodeTok revoked b hb hsw
    simp [authenticate, hb, hsw]
  · intro allowed decodeTok revoked b hsw hdec
    simp [authenticate, hne b hsw, hsw, hdec]
  · intro allowed decodeTok st b jwt hsw hdec hrev
    simp [authenticate, hne b hsw, hsw, hdec, hrev]
  · intro allowed decodeTok revoked b jwt hsw hdec hrev hcon
    simp [authenticate, hne b hsw, hsw, hdec, hrev, hcon]
    simpa using hcon
  · intro st now tok e he hlt
    simp only [Redis.revoke_token, List.mem_append, List.mem_filter] at he
    rcases he with ⟨⟨-, hkeep⟩, -⟩ | hnew
    · simp only [Bool.not_eq_true', decide_eq_false_iff_not, not_le] at hkeep
      omega
    · simpa using hnew

/-- Claim C1: `join_queue` of a ready group with `m` members scans the
queued slot ids in FIFO order and packs the group into the first slot `s`
with `k + m ≤ capacity`, setting the group's slot id to `s`, adding the
members to `s`'s players and the group id to `s`'s groups; when no queued
slot fits, a fresh slot holding exactly the group's members and this single
group is appended to the end of the queue.  Stated for both drivers: the
queue is written as `q₁ ++ s :: q₂` where nothing in `q₁` fits, so a later
slot is never chosen over an earlier fitting one. -/
theorem c1_join_queue_first_fit :
    (∀ (rdb : List Game) (st : InMemoryState) (groupid freshSlotid : Nat)
       (group : Group) (game : Game) (q : List Nat),
      aget st.groups groupid = some group →
      group.state = .GROUP_CHECK →
      InMemory.ready_check st.users group.members = none →
      Postgres.get_game_by_id rdb group.gameid = .ok game →
      q = (aget st.queues game.gameid).getD [] →
      ((∀ (q₁ q₂ : List Nat) (s : Nat) (slot : Slot),
          q = q₁ ++ s :: q₂ →
          aget st.slots s = some slot →
          slot.players.length + group.members.length ≤ game.capacity →
          (∀ s' ∈ q₁, ∃ sl, aget st.slots s' = some sl ∧
              game.capacity < sl.players.length + group.members.length) →
          (InMemory.join_queue rdb st groupid freshSlotid).res = .ok () ∧
          aget (InMemory.join_queue rdb st groupid freshSlotid).st.groups groupid =
            some { group with state := .IN_QUEUE, slotid := some s } ∧
          aget (InMemory.join_queue rdb st groupid freshSlotid).st.slots s =
            some { slot with players := slot.players ++ group.members,
                             groups := slot.groups ++ [groupid] } ∧
          (InMemory.join_queue rdb st groupid freshSlotid).st.queues = st.queues) ∧
       ((∀ s ∈ q, ∃ sl, aget st.slots s = some sl ∧
            game.capacity < sl.players.length + group.members.length) →
          (InMemory.join_queue rdb st groupid freshSlotid).res = .ok () ∧
          aget (InMemory.join_queue rdb st groupid freshSlotid).st.groups groupid =
            some { group with state := .IN_QUEUE, slotid := some freshSlotid } ∧
          aget (InMemory.join_queue rdb st groupid freshSlotid).st.slots freshSlotid =
            some { players := group.members, groups := [groupid] } ∧
          aget (InMemory.join_queue rdb st groupid freshSlotid).st.queues game.gameid =
            some (q ++ [freshSlotid])))) ∧
    (∀ (rdb : List Game) (st : RedisState) (groupid freshSlotid gameid : Nat)
       (game : Game) (members : List Nat) (q : List Nat),
      aget st.groupGameid groupid = some gameid →
      aget st.groupState groupid = some .GROUP_CHECK →
      Redis.is_group_ready st groupid = true →
      Postgres.get_game_by_id rdb gameid = .ok game →
      members = (aget st.groupMembers groupid).getD [] →
      q = (aget st.queues gameid).getD [] →
      ((∀ (q₁ q₂ : List Nat) (s : Nat),
          q = q₁ ++ s :: q₂ →
          ((aget st.slotPlayers s).getD []).length + members.length ≤ game.capacity →
          (∀ s' ∈ q₁,
            game.capacity < ((aget st.slotPlayers s').getD []).length + members.length) →
          (Redis.join_queue rdb st groupid freshSlotid).res = .ok () ∧
          aget (Redis.join_queue rdb st groupid freshSlotid).st.groupSlotid groupid =
            some s ∧
          aget (Redis.join_queue rdb st groupid freshSlotid).st.slotPlayers s =
            some (sunion ((aget st.slotPlayers s).getD []) members) ∧
          aget (Redis.join_queue rdb st groupid freshSlotid).st.slotGroups s =
            some (sadd ((aget st.slotGroups s).getD []) groupid) ∧
          (Redis.join_queue rdb st groupid freshSlotid).st.queues = st.queues) ∧
       ((∀ s ∈ q,
            game.capacity < ((aget st.slotPlayers s).getD []).length + members.length) →
          (Redis.join_queue rdb st groupid freshSlotid).res = .ok () ∧
          aget (Redis.join_queue rdb st groupid freshSlotid).st.groupSlotid groupid =
            some freshSlotid ∧
          aget (Redis.join_queue rdb st groupid freshSlotid).st.slotPlayers freshSlotid =
            some members ∧
          aget (Redis.join_queue rdb st groupid freshSlotid).st.slotGroups freshSlotid =
            some [groupid] ∧
          aget (Redis.join_queue rdb st groupid freshSlotid).st.queues gameid =
            some (q ++ [freshSlotid])))) := by
  constructor
  · intro rdb st groupid freshSlotid group game q hg hstate hready hgame hq
    constructor
    · intro q₁ q₂ s slot hsplit hslot hfit hbefore
      have hqs : aget st.queues game.gameid = some q := by
        cases hq0 : aget st.queues game.gameid with
        | none => rw [hq0] at hq; simp at hq; simp [hq] at hsplit
        | some q' => rw [hq0] at hq; simp at hq; rw [hq]
      subst hsplit
      have hpack := pack_loop_im_fit
        ({ st with groups := aset st.groups groupid { group with state := .IN_QUEUE } })
        groupid { group with state := .IN_QUEUE } game.gameid game.capacity
        q₁ q₂ s slot hslot hfit hbefore
      have hrun : InMemory.join_queue rdb st groupid freshSlotid =
          { res := .ok (),
            st := { st with
              groups := (aset (aset st.groups groupid { group with state := .IN_QUEUE })
                groupid { group with state := .IN_QUEUE, slotid := some s }),
              slots := (aset st.slots s
                { slot with players := slot.players ++ group.members,
                            groups := slot.groups ++ [groupid] }) },
            tasks := if slot.players.length + group.members.length = game.capacity
                     then [SchedTask.startGame game.gameid s] else [] } := by
        simp only [InMemory.join_queue, hg]
        rw [if_neg (by simp [hstate])]
        simp only [hready, hgame, hqs, Option.getD_some, hpack]
        try rfl
      rw [hrun]
      exact ⟨rfl, aget_aset_self .., aget_aset_self .., rfl⟩
    · intro hnofit
      have hpack := pack_loop_im_none
        ({ st with groups := aset st.groups groupid { group with state := .IN_QUEUE } })
        groupid { group with state := .IN_QUEUE } game.gameid game.capacity q hnofit
      cases hq0 : aget st.queues game.gameid with
      | some q' =>
        have hq' : q = q' := by rw [hq0] at hq; simpa using hq
        subst hq'
        have hrun : InMemory.join_queue rdb st groupid freshSlotid =
            { res := .ok (),
              st := { st with
                groups := (aset (aset st.groups groupid { group with state := .IN_QUEUE })
                  groupid { group with state := .IN_QUEUE, slotid := some freshSlotid }),
                slots := (aset st.slots freshSlotid ⟨group.members, [groupid]⟩),
                queues := (aset st.queues game.gameid (q ++ [freshSlotid])) },
              tasks := if group.members.length = game.capacity
                       then [SchedTask.startGame game.gameid freshSlotid] else [] } := by
          simp only [InMemory.join_queue, hg]
          rw [if_neg (by simp [hstate])]
          simp only [hready, hgame, hq0, Option.getD_some, hpack]
        try rfl
        rw [hrun]
        exact ⟨rfl, aget_aset_self .., aget_aset_self .., by rw [aget_aset_self]⟩
      | none =>
        have hq' : q = [] := by rw [hq0] at hq; simpa using hq
        subst hq'
        have hpack₂ := pack_loop_im_none
          ({ st with groups := aset st.groups groupid { group with state := .IN_QUEUE },
                     queues := (aset st.queues game.gameid []) })
          groupid { group with state := .IN_QUEUE } game.gameid game.capacity [] (by simp)
        have hrun : InMemory.join_queue rdb st groupid freshSlotid =
            { res := .ok (),
              st := { st with
                groups := (aset (aset st.groups groupid { group with state := .IN_QUEUE })
                  groupid { group with state := .IN_QUEUE, slotid := some freshSlotid }),
                slots := (aset st.slots freshSlotid ⟨group.members, [groupid]⟩),
                queues := (aset (aset st.queues game.gameid []) game.gameid
                  ([] ++ [freshSlotid])) },
              tasks := if group.members.length = game.capacity
                       then [SchedTask.startGame game.gameid freshSlotid] else [] } := by
          simp only [InMemory.join_queue, hg]
          rw [if_neg (by simp [hstate])]
          simp only [hready, hgame, hq0, Option.getD_none, hpack₂]
          try rfl
        rw [hrun]
        refine ⟨rfl, aget_aset_self .., aget_aset_self .., ?_⟩
        rw [aset_aset, aget_aset_self]
  · intro rdb st groupid freshSlotid gameid game members q hgm hst hrdy hgame hmem hq
    constructor
    · intro q₁ q₂ s hsplit hfit hbefore
      have hpack := pack_loop_r_fit
        ({ st with groupState := aset st.groupState groupid .IN_QUEUE })
        groupid members gameid game.capacity q₁ q₂ s hfit hbefore
      have hrun : Redis.join_queue rdb st groupid freshSlotid =
          { res := .ok (),
            st := { st with
              groupState := (aset st.groupState groupid .IN_QUEUE),
              groupSlotid := (aset st.groupSlotid groupid s),
              slotPlayers := (aset st.slotPlayers s
                (sunion ((aget st.slotPlayers s).getD []) members)),
              slotGroups := (aset st.slotGroups s
                (sadd ((aget st.slotGroups s).getD []) groupid)) },
            tasks := if ((aget st.slotPlayers s).getD []).length + members.length =
                game.capacity
              then [SchedTask.startGame gameid s] else [] } := by
        simp only [Redis.join_queue, hgm, hst]
        rw [if_neg (by simp), if_neg (by simp [hrdy])]
        simp only [hgame, ← hmem, ← hq, hsplit, Option.getD_some, hpack]
        try rfl
      rw [hrun]
      exact ⟨rfl, aget_aset_self .., aget_aset_self .., aget_aset_self .., rfl⟩
    · intro hnofit
      have hpack := pack_loop_r_none
        ({ st with groupState := aset st.groupState groupid .IN_QUEUE })
        groupid members gameid game.capacity q hnofit
      have hrun : Redis.join_queue rdb st groupid freshSlotid =
          { res := .ok (),
            st := { st with
              groupState := (aset st.groupState groupid .IN_QUEUE),
              groupSlotid := (aset st.groupSlotid groupid freshSlotid),
              slotPlayers := (aset st.slotPlayers freshSlotid (sunion [] members)),
              slotGroups := (aset st.slotGroups freshSlotid (sadd [] groupid)),
              queues := (aset st.queues gameid (q ++ [freshSlotid])) },
            tasks := if members.length = game.capacity
                     then [SchedTask.startGame gameid freshSlotid] else [] } := by
        simp only [Redis.join_queue, hgm, hst]
        rw [if_neg (by simp), if_neg (by simp [hrdy])]
        simp only [hgame, ← hmem, ← hq, Option.getD_some, hpack]
        try rfl
      rw [hrun]
      refine ⟨rfl, aget_aset_self .., ?_, ?_, by rw [aget_aset_self]⟩
      · rw [aget_aset_self, sunion_nil]
      · rw [aget_aset_self]
        simp [sadd]

/-- Claim C1 witness: in `stA` (game capacity 2, queue `[7]`, slot 7 with
one player), ready group 101 is packed into slot 7, the first fitting
slot. -/
theorem c1_join_queue_first_fit_witness :
    (InMemory.join_queue Fixtures.rdb1 Fixtures.stA 101 99).res = .ok () ∧
    aget (InMemory.join_queue Fixtures.rdb1 Fixtures.stA 101 99).st.groups 101 =
      some ⟨.IN_QUEUE, [11], 1, some 7, none⟩ ∧
    aget (InMemory.join_queue Fixtures.rdb1 Fixtures.stA 101 99).st.slots 7 =
      some ⟨[10, 11], [100, 101]⟩ ∧
    (InMemory.join_queue Fixtures.rdb1 Fixtures.stA 101 99).st.queues =
      Fixtures.stA.queues :=
  (c1_join_queue_first_fit.1 Fixtures.rdb1 Fixtures.stA 101 99
      ⟨.GROUP_CHECK, [11], 1, none, none⟩ ⟨1, 2, [5000]⟩ [7]
      (by decide) rfl (by decide) (by decide) (by decide)).1
    [] [] 7 ⟨[10], [100]⟩ rfl (by decide) (by decide) (by simp)

/-- Claim C2 (amended): when `join_queue` fills a slot to exactly the
game's capacity, the slot is *not* removed from the queue by `join_queue`
itself — it is still queued when the call returns — and
`startGame(gameId, s)` is scheduled asynchronously; the scheduled
`start_game` is what removes the slot from the queue when it runs.  Stated
for both drivers. -/
theorem c2_full_slot_deferred_removal :
    (∀ (rdb : List Game) (st : InMemoryState) (groupid freshSlotid pid : Nat)
       (host : String) (ports : List Nat) (group : Group) (game : Game)
       (q₁ q₂ : List Nat) (s : Nat) (slot : Slot),
      aget st.groups groupid = some group →
      group.state = .GROUP_CHECK →
      InMemory.ready_check st.users group.members = none →
      Postgres.get_game_by_id rdb group.gameid = .ok game →
      (aget st.queues game.gameid).getD [] = q₁ ++ s :: q₂ →
      aget st.slots s = some slot →
      slot.players.length + group.members.length = game.capacity →
      (∀ s' ∈ q₁, ∃ sl, aget st.slots s' = some sl ∧
          game.capacity < sl.players.length + group.members.length) →
      (∀ g ∈ slot.groups, (aget st.groups g).isSome) →
      groupid ∉ slot.groups →
      (∀ u ∈ slot.players ++ group.members, (aget st.users u).isSome) →
      (q₁ ++ s :: q₂).Nodup →
      (InMemory.join_queue rdb st groupid freshSlotid).res = .ok () ∧
      aget (InMemory.join_queue rdb st groupid freshSlotid).st.slots s =
        some { slot with players := slot.players ++ group.members,
                         groups := slot.groups ++ [groupid] } ∧
      (slot.players ++ group.members).length = game.capacity ∧
      s ∈ (aget (InMemory.join_queue rdb st groupid freshSlotid).st.queues
          game.gameid).getD [] ∧
      (InMemory.join_queue rdb st groupid freshSlotid).tasks =
        [SchedTask.startGame game.gameid s] ∧
      (InMemory.start_game rdb (InMemory.join_queue rdb st groupid freshSlotid).st
          game.gameid s pid host ports).res = .ok () ∧
      s ∉ (aget (InMemory.start_game rdb
            (InMemory.join_queue rdb st groupid freshSlotid).st
            game.gameid s pid host ports).st.queues game.gameid).getD []) ∧
    (∀ (rdb : List Game) (st : RedisState) (groupid freshSlotid gameid pid : Nat)
       (host : String) (ports : List Nat) (game : Game)
       (members q₁ q₂ : List Nat) (s : Nat),
      aget st.groupGameid groupid = some gameid →
      aget st.groupState groupid = some .GROUP_CHECK →
      Redis.is_group_ready st groupid = true →
      Postgres.get_game_by_id rdb gameid = .ok game →
      members = (aget st.groupMembers groupid).getD [] →
      (aget st.queues gameid).getD [] = q₁ ++ s :: q₂ →
      ((aget st.slotPlayers s).getD []).length + members.length = game.capacity →
      (∀ s' ∈ q₁,
          game.capacity < ((aget st.slotPlayers s').getD []).length + members.length) →
      (q₁ ++ s :: q₂).Nodup →
      (Redis.join_queue rdb st groupid freshSlotid).res = .ok () ∧
      s ∈ (aget (Redis.join_queue rdb st groupid freshSlotid).st.queues gameid).getD [] ∧
      (Redis.join_queue rdb st groupid freshSlotid).tasks =
        [SchedTask.startGame gameid s] ∧
      (Redis.start_game rdb (Redis.join_queue rdb st groupid freshSlotid).st
          gameid s pid host ports).res = .ok () ∧
      s ∉ (aget (Redis.start_game rdb
            (Redis.join_queue rdb st groupid freshSlotid).st
            gameid s pid host ports).st.queues gameid).getD []) := by
  constructor
  · intro rdb st groupid freshSlotid pid host ports group game q₁ q₂ s slot
      hg hstate hready hgame hql hslot hcap hbefore hpresg hnot hpresu hnodup
    have hgid := get_game_by_id_gameid rdb group.gameid game hgame
    have hqs : aget st.queues game.gameid = some (q₁ ++ s :: q₂) := by
      cases hq0 : aget st.queues game.gameid with
      | none => rw [hq0] at hql; simp at hql
      | some q' => rw [hq0] at hql; simp at hql; rw [hql]
    have hque' : aget st.queues group.gameid = some (q₁ ++ s :: q₂) := by
      rw [← hgid]; exact hqs
    have hrun := join_queue_im_fit_run rdb st groupid freshSlotid group game
      q₁ q₂ s slot hg hstate hready hgame hqs hslot (le_of_eq hcap) hbefore
    have hsg := start_game_im_run rdb
      (InMemory.join_queue rdb st groupid freshSlotid).st
      game.gameid s pid host ports
      { slot with players := slot.players ++ group.members,
                  groups := slot.groups ++ [groupid] }
      slot.groups groupid
      { group with state := .IN_QUEUE, slotid := some s }
      game (q₁ ++ s :: q₂)
      (by rw [hrun]; exact aget_aset_self ..)
      rfl
      (by intro g hgmem
          rw [hrun]
          exact aget_aset_isSome _ _ _ _ (aget_aset_isSome _ _ _ _ (hpresg g hgmem)))
      hnot
      (by rw [hrun]; exact aget_aset_self ..)
      (by intro u hu; rw [hrun]; exact hpresu u hu)
      (by rw [hrun]; exact hque')
      rfl
      (by simp)
      (by rw [hgid]; exact hgame)
    refine ⟨?_, ?_, ?_, ?_, ?_, hsg.1, ?_⟩
    · rw [hrun]
    · rw [hrun]; exact aget_aset_self ..
    · simpa using hcap
    · rw [hrun]
      simp [hqs]
    · rw [hrun]
      simp only [if_pos hcap]
    · rw [hsg.2]
      simp only [hgid, aget_aset_self, Option.getD_some]
      exact List.Nodup.not_mem_erase hnodup
  · intro rdb st groupid freshSlotid gameid pid host ports game members q₁ q₂ s
      hgm hst hrdy hgame hmem hql hcap hbefore hnodup
    have hrun := join_queue_r_fit_run rdb st groupid freshSlotid gameid game members
      q₁ q₂ s hgm hst hrdy hgame hmem hql (le_of_eq hcap) hbefore
    have hsq := start_game_r_queue rdb
      (Redis.join_queue rdb st groupid freshSlotid).st gameid s pid host ports game hgame
    refine ⟨?_, ?_, ?_, hsq.1, ?_⟩
    · rw [hrun]
    · rw [hrun]
      simp only []
      rw [show ({ st with
            groupState := (aset st.groupState groupid .IN_QUEUE),
            groupSlotid := (aset st.groupSlotid groupid s),
            slotPlayers := (aset st.slotPlayers s
              (sunion ((aget st.slotPlayers s).getD []) members)),
            slotGroups := (aset st.slotGroups s
              (sadd ((aget st.slotGroups s).getD []) groupid)) } : RedisState).queues =
          st.queues from rfl]
      rw [hql]
      simp
    · rw [hrun]
      simp only [if_pos hcap]
    · rw [hsq.2, hrun]
      simp only [aget_aset_self, Option.getD_some]
      rw [show ({ st with
            groupState := (aset st.groupState groupid .IN_QUEUE),
            groupSlotid := (aset st.groupSlotid groupid s),
            slotPlayers := (aset st.slotPlayers s
              (sunion ((aget st.slotPlayers s).getD []) members)),
            slotGroups := (aset st.slotGroups s
              (sadd ((aget st.slotGroups s).getD []) groupid)) } : RedisState).queues =
          st.queues from rfl]
      rw [hql]
      exact List.Nodup.not_mem_erase hnodup

/-- Claim C2 amended-claim witness: the concrete `stA` scenario — slot 7 is
filled to capacity 2, stays queued after `join_queue`, `start_game` is the
scheduled task, and running it removes slot 7 from the queue. -/
theorem c2_full_slot_deferred_removal_witness :
    (InMemory.join_queue Fixtures.rdb1 Fixtures.stA 101 99).res = .ok () ∧
    aget (InMemory.join_queue Fixtures.rdb1 Fixtures.stA 101 99).st.slots 7 =
      some ⟨[10, 11], [100, 101]⟩ ∧
    ([10, 11] : List Nat).length = 2 ∧
    7 ∈ (aget (InMemory.join_queue Fixtures.rdb1 Fixtures.stA 101 99).st.queues 1).getD [] ∧
    (InMemory.join_queue Fixtures.rdb1 Fixtures.stA 101 99).tasks =
      [SchedTask.startGame 1 7] ∧
    (InMemory.start_game Fixtures.rdb1
        (InMemory.join_queue Fixtures.rdb1 Fixtures.stA 101 99).st
        1 7 500 "gamehost" [6001]).res = .ok () ∧
    7 ∉ (aget (InMemory.start_game Fixtures.rdb1
          (InMemory.join_queue Fixtures.rdb1 Fixtures.stA 101 99).st
          1 7 500 "gamehost" [6001]).st.queues 1).getD [] :=
  c2_full_slot_deferred_removal.1 Fixtures.rdb1 Fixtures.stA 101 99 500 "gamehost" [6001]
    ⟨.GROUP_CHECK, [11], 1, none, none⟩ ⟨1, 2, [5000]⟩ [] [] 7 ⟨[10], [100]⟩
    (by decide) rfl (by decide) (by decide) (by decide) (by decide) (by decide)
    (by simp) (by decide) (by decide) (by decide) (by decide)

/-- Claim C8 witness: the gate and the pruning at concrete inputs. -/
theorem c8_token_gate_witness :
    authenticate [ClientType.PLAYER] (fun _ => none) (fun _ => false) none =
      .err 401 "Authorization header required" ∧
    authenticate [ClientType.ADMIN]
        (fun _ => some ⟨1, .PLAYER, 9, 99⟩) (fun _ => false) (some "Bearer: x".data) =
      .err 403 "Restricted access" ∧
    ((7 : Nat), (3 : Nat)) =
      ((⟨7, .PLAYER, 9, 3⟩ : TokenClaims).jti, (⟨7, .PLAYER, 9, 3⟩ : TokenClaims).exp) :=
  ⟨c8_token_gate.1 [ClientType.PLAYER] (fun _ => none) (fun _ => false),
   c8_token_gate.2.2.2.2.1 [ClientType.ADMIN] (fun _ => some ⟨1, .PLAYER, 9, 99⟩)
     (fun _ => false) "Bearer: x".data ⟨1, .PLAYER, 9, 99⟩
     (by decide) rfl rfl (by decide),
   c8_token_gate.2.2.2.2.2.2 ({ trl := [(3, 5)] } : RedisState) 10 ⟨7, .PLAYER, 9, 3⟩
     (7, 3) (by decide) (by decide)⟩

end WebAPI
